import Mathlib

/-!
Shallow embedding of `src/music_db.py` (a music catalog store backed by a
MySQL database) together with proofs about the claims of its specification.

The database is modelled as an explicit record of tables (lists of rows) plus
one auto-increment counter per table that has a surrogate key, exactly
mirroring the schema used by the SQL statements in the source:
  Artist(artist_id PK AUTO_INCREMENT, name UNIQUE)
  Genre(genre_id PK AUTO_INCREMENT, name UNIQUE)
  Song(song_id PK AUTO_INCREMENT, title, artist_id, album_id NULL, release_date)
  Album(album_id PK AUTO_INCREMENT, title, artist_id, release_date, genre_id)
  SongGenre(song_id, genre_id)
  User(user_id PK AUTO_INCREMENT, username UNIQUE)
  Rating(user_id, song_id, rating, rating_date)

SQL `SELECT ... WHERE ... fetchone()` becomes `List.find?`, `INSERT` appends a
row and bumps the counter, `COUNT(*)` over a filtered join becomes the length
of a filtered list.  Dates are modelled structurally; the SQL `YEAR(...)`
function reads the `year` field.  Python functions that return a `set` of
rejected keys are modelled as returning the list of rejected keys in
processing order; the claims only speak about membership, which agrees with
set membership.
-/

structure Date where
  year : Int
  month : Nat
  day : Nat
deriving DecidableEq, Repr

structure ArtistRow where
  artist_id : Nat
  name : String
deriving DecidableEq, Repr

structure GenreRow where
  genre_id : Nat
  name : String
deriving DecidableEq, Repr

structure SongRow where
  song_id : Nat
  title : String
  artist_id : Nat
  album_id : Option Nat
  release_date : Date
deriving DecidableEq, Repr

structure AlbumRow where
  album_id : Nat
  title : String
  artist_id : Nat
  release_date : Date
  genre_id : Nat
deriving DecidableEq, Repr

structure SongGenreRow where
  song_id : Nat
  genre_id : Nat
deriving DecidableEq, Repr

structure UserRow where
  user_id : Nat
  username : String
deriving DecidableEq, Repr

structure RatingRow where
  user_id : Nat
  song_id : Nat
  rating : Int
  rating_date : Date
deriving DecidableEq, Repr

structure DB where
  artists : List ArtistRow
  genres : List GenreRow
  songs : List SongRow
  albums : List AlbumRow
  songGenres : List SongGenreRow
  users : List UserRow
  ratings : List RatingRow
  nextArtistId : Nat
  nextGenreId : Nat
  nextSongId : Nat
  nextAlbumId : Nat
  nextUserId : Nat
deriving DecidableEq, Repr

/-- The freshly provisioned store: every table empty, every auto-increment
counter at its MySQL starting value 1. -/
def emptyDB : DB :=
  { artists := [], genres := [], songs := [], albums := [], songGenres := []
    users := [], ratings := []
    nextArtistId := 1, nextGenreId := 1, nextSongId := 1, nextAlbumId := 1
    nextUserId := 1 }

/-- Embeds `_get_or_create_artist`: look the artist up by name and return its
id; on a miss insert a new row (auto-increment id) and return the fresh id.
The updated store is returned alongside the id. -/
def get_or_create_artist (db : DB) (artist_name : String) : DB × Nat :=
  match db.artists.find? (fun a => a.name == artist_name) with
  | some a => (db, a.artist_id)
  | none =>
      let aid := db.nextArtistId
      ({ db with artists := db.artists ++ [⟨aid, artist_name⟩]
                 nextArtistId := aid + 1 }, aid)

/-- Embeds `_get_artist_id`: look up an artist id by name, `none` on a miss. -/
def get_artist_id (db : DB) (artist_name : String) : Option Nat :=
  (db.artists.find? (fun a => a.name == artist_name)).map (fun a => a.artist_id)

/-- Embeds `_get_or_create_genre`. -/
def get_or_create_genre (db : DB) (genre_name : String) : DB × Nat :=
  match db.genres.find? (fun g => g.name == genre_name) with
  | some g => (db, g.genre_id)
  | none =>
      let gid := db.nextGenreId
      ({ db with genres := db.genres ++ [⟨gid, genre_name⟩]
                 nextGenreId := gid + 1 }, gid)

/-- Embeds `_get_song_id_by_artist_and_title`: the `SELECT song_id FROM Song
WHERE artist_id = .. AND title = ..` lookup used by all loaders. -/
def get_song_id_by_artist_and_title (db : DB) (artist_id : Nat) (title : String) :
    Option Nat :=
  (db.songs.find? (fun s => s.artist_id == artist_id && s.title == title)).map
    (fun s => s.song_id)

/-- Embeds `_get_user_id`. -/
def get_user_id (db : DB) (username : String) : Option Nat :=
  (db.users.find? (fun u => u.username == username)).map (fun u => u.user_id)

/-- Embeds the `SELECT album_id FROM Album WHERE artist_id = .. AND title = ..`
lookup inside `load_albums`. -/
def get_album_id (db : DB) (artist_id : Nat) (title : String) : Option Nat :=
  (db.albums.find? (fun al => al.artist_id == artist_id && al.title == title)).map
    (fun al => al.album_id)

/-- Embeds the `INSERT INTO SongGenre` statement. -/
def insertSongGenre (db : DB) (song_id genre_id : Nat) : DB :=
  { db with songGenres := db.songGenres ++ [⟨song_id, genre_id⟩] }

/-- One input record of `load_single_songs`:
`(song_title, genres, artist_name, release_date_string)`.  The genre names
come in as a Python tuple, i.e. an ordered list possibly with repetitions. -/
structure SingleRecord where
  title : String
  genres : List String
  artist_name : String
  release_date : Date
deriving DecidableEq, Repr

/-- The genre-insertion loop at the end of an accepted single: for each genre
name, get-or-create the genre and link it to the song.  The Python code
iterates over `set(genre_names)` (deduplicated, unspecified order); we model
it as iterating over the distinct names, each processed at its last
occurrence in input order.  No claim depends on the iteration order. -/
def insert_single_genres (db : DB) (song_id : Nat) : List String → DB
  | [] => db
  | g :: gs =>
      if gs.contains g then insert_single_genres db song_id gs
      else
        let p := get_or_create_genre db g
        insert_single_genres (insertSongGenre p.1 song_id p.2) song_id gs

/-- The body of the `for` loop of `load_single_songs` for one record: returns
the updated store and `some rejectedKey` when the record was rejected.
Mirrors the source: empty genre set rejects without touching the store;
otherwise get-or-create the artist, reject if the (artist, title) song exists,
else insert the song with `album_id` NULL and link its genres. -/
def load_single_songs_step (db : DB) (r : SingleRecord) :
    DB × Option (String × String) :=
  if r.genres.isEmpty then (db, some (r.title, r.artist_name))
  else
    let p := get_or_create_artist db r.artist_name
    match get_song_id_by_artist_and_title p.1 p.2 r.title with
    | some _ => (p.1, some (r.title, r.artist_name))
    | none =>
        let sid := p.1.nextSongId
        let db2 := { p.1 with
                      songs := p.1.songs ++ [⟨sid, r.title, p.2, none, r.release_date⟩]
                      nextSongId := sid + 1 }
        (insert_single_genres db2 sid r.genres, none)

/-- Embeds `load_single_songs`: process the records in input order, collecting
the rejected `(title, artist_name)` keys. -/
def load_single_songs (db : DB) : List SingleRecord → DB × List (String × String)
  | [] => (db, [])
  | r :: rs =>
      let p := load_single_songs_step db r
      let q := load_single_songs (p.1) rs
      (q.1, p.2.toList ++ q.2)

/-- One input record of `load_albums`:
`(album_title, album_genre, artist_name, release_date_string, song_titles)`. -/
structure AlbumRecord where
  album_title : String
  album_genre : String
  artist_name : String
  release_date : Date
  song_titles : List String
deriving DecidableEq, Repr

/-- The body of the inner track loop of `load_albums` for one song title: if
the (artist, title) song already exists, skip the track (store unchanged);
otherwise insert the Song row with the album id and the album release date,
then link it to the album genre in SongGenre. -/
def load_albums_track (artist_id album_id genre_id : Nat) (release_date : Date)
    (db : DB) (song_title : String) : DB :=
  match get_song_id_by_artist_and_title db artist_id song_title with
  | some _ => db
  | none =>
      let sid := db.nextSongId
      let db1 := { db with
                    songs := db.songs ++
                      [⟨sid, song_title, artist_id, some album_id, release_date⟩]
                    nextSongId := sid + 1 }
      insertSongGenre db1 sid genre_id

/-- The whole track loop of `load_albums` over a list of song titles. -/
def load_albums_tracks (artist_id album_id genre_id : Nat) (release_date : Date)
    (db : DB) (song_titles : List String) : DB :=
  song_titles.foldl (load_albums_track artist_id album_id genre_id release_date) db

/-- The body of the `for` loop of `load_albums` for one record: get-or-create
the artist and the album genre (in that order, before any duplicate check),
reject if the (artist, album title) album exists, else insert the album and
run the track loop. -/
def load_albums_step (db : DB) (r : AlbumRecord) : DB × Option (String × String) :=
  let p := get_or_create_artist db r.artist_name
  let q := get_or_create_genre p.1 r.album_genre
  match get_album_id q.1 p.2 r.album_title with
  | some _ => (q.1, some (r.album_title, r.artist_name))
  | none =>
      let alid := q.1.nextAlbumId
      let db3 := { q.1 with
                    albums := q.1.albums ++
                      [⟨alid, r.album_title, p.2, r.release_date, q.2⟩]
                    nextAlbumId := alid + 1 }
      (load_albums_tracks p.2 alid q.2 r.release_date db3 r.song_titles, none)

/-- Embeds `load_albums`: process the records in input order, collecting the
rejected `(album_title, artist_name)` keys. -/
def load_albums (db : DB) : List AlbumRecord → DB × List (String × String)
  | [] => (db, [])
  | r :: rs =>
      let p := load_albums_step db r
      let q := load_albums (p.1) rs
      (q.1, p.2.toList ++ q.2)

/-- Embeds the loop of `load_users` with its `seen_in_batch` set: a username
is rejected if already seen in this call, else recorded as seen and rejected
if it already exists in the store, else inserted. -/
def load_users_from (db : DB) (seen : List String) :
    List String → DB × List String
  | [] => (db, [])
  | u :: us =>
      if seen.contains u then
        let q := load_users_from db seen us
        (q.1, u :: q.2)
      else
        match get_user_id db u with
        | some _ =>
            let q := load_users_from db (seen ++ [u]) us
            (q.1, u :: q.2)
        | none =>
            let uid := db.nextUserId
            let db1 := { db with users := db.users ++ [⟨uid, u⟩]
                                 nextUserId := uid + 1 }
            let q := load_users_from db1 (seen ++ [u]) us
            (q.1, q.2)

/-- Embeds `load_users`. -/
def load_users (db : DB) (users : List String) : DB × List String :=
  load_users_from db [] users

/-- One input record of `load_song_ratings`:
`(username, (artist_name, song_title), rating, rating_date_string)`. -/
structure RatingRecord where
  username : String
  artist_name : String
  song_title : String
  rating : Int
  rating_date : Date
deriving DecidableEq, Repr

/-- The identifying key a rating record contributes to the rejection set. -/
def ratingKey (r : RatingRecord) : String × String × String :=
  (r.username, r.artist_name, r.song_title)

/-- The body of the `for` loop of `load_song_ratings` for one record,
performing the checks in source order: user lookup, artist lookup, song
lookup, rating range, existing rating.  The first failing check rejects the
record with its key and leaves the store untouched; otherwise the Rating row
is inserted. -/
def load_song_ratings_step (db : DB) (r : RatingRecord) :
    DB × Option (String × String × String) :=
  match get_user_id db r.username with
  | none => (db, some (ratingKey r))
  | some user_id =>
      match get_artist_id db r.artist_name with
      | none => (db, some (ratingKey r))
      | some artist_id =>
          match get_song_id_by_artist_and_title db artist_id r.song_title with
          | none => (db, some (ratingKey r))
          | some song_id =>
              if ¬ (1 ≤ r.rating ∧ r.rating ≤ 5) then (db, some (ratingKey r))
              else if db.ratings.any
                  (fun rt => rt.user_id == user_id && rt.song_id == song_id) then
                (db, some (ratingKey r))
              else
                ({ db with ratings := db.ratings ++
                    [⟨user_id, song_id, r.rating, r.rating_date⟩] }, none)

/-- Embeds `load_song_ratings`: process the records in input order, collecting
the rejected `(username, artist_name, song_title)` keys. -/
def load_song_ratings (db : DB) :
    List RatingRecord → DB × List (String × String × String)
  | [] => (db, [])
  | r :: rs =>
      let p := load_song_ratings_step db r
      let q := load_song_ratings (p.1) rs
      (q.1, p.2.toList ++ q.2)

/-- Insertion into a list sorted by the boolean preorder `le`; used to model
the SQL `ORDER BY` clauses. -/
def insertLE (le : α → α → Bool) (a : α) : List α → List α
  | [] => [a]
  | b :: l => if le a b then a :: b :: l else b :: insertLE le a l

/-- Insertion sort by the boolean preorder `le`; models SQL `ORDER BY`. -/
def sortLE (le : α → α → Bool) : List α → List α
  | [] => []
  | a :: l => insertLE le a (sortLE le l)

/-- Models the MySQL `LIMIT %s` clause with the parameter coming from a
Python `int`: a nonnegative argument keeps the first `n` rows; a negative
argument is interpolated as e.g. `LIMIT -1`, which MySQL rejects with a
syntax error, so the query (and hence the Python call) fails — modelled as
`none`. -/
def sqlLimit (n : Int) (l : List α) : Option (List α) :=
  if n < 0 then none else some (l.take n.toNat)

/-- Lexicographic (weak) comparison of character lists by code point; models
the `ASC` ordering MySQL applies to the name columns. -/
def charListLe : List Char → List Char → Bool
  | [], _ => true
  | _ :: _, [] => false
  | a :: as, b :: bs =>
      if a.toNat < b.toNat then true
      else if b.toNat < a.toNat then false
      else charListLe as bs

/-- Lexicographic strict comparison of character lists by code point. -/
def charListLt : List Char → List Char → Bool
  | [], [] => false
  | [], _ :: _ => true
  | _ :: _, [] => false
  | a :: as, b :: bs =>
      if a.toNat < b.toNat then true
      else if b.toNat < a.toNat then false
      else charListLt as bs

/-- Lexicographic string comparison (weak) used for `ORDER BY name ASC`. -/
def strLe (a b : String) : Bool := charListLe a.data b.data

/-- Lexicographic string comparison (strict). -/
def strLt (a b : String) : Bool := charListLt a.data b.data

/-- The ordering used by `ORDER BY <count> DESC, <name> ASC` on
`(name, count)` result rows: `x` may precede `y` iff `x`'s count is larger,
or the counts are equal and `x`'s name is alphabetically no later. -/
def countDescNameAsc (x y : String × Nat) : Bool :=
  decide (y.2 < x.2) || (decide (x.2 = y.2) && strLe x.1 y.1)

/-- Strict version of `countDescNameAsc`: equal counts force a strictly
earlier name.  This is the ordering the specification asserts for the
ranking queries. -/
def countDescNameAscStrict (x y : String × Nat) : Bool :=
  decide (y.2 < x.2) || (decide (x.2 = y.2) && strLt x.1 y.1)

/-- The ordering used by `get_most_rated_songs` result rows
`(title, artist_name, count)`: `ORDER BY num_ratings DESC, s.title ASC`.
The artist name is not part of the ordering. -/
def ratedDescTitleAsc (x y : String × String × Nat) : Bool :=
  decide (y.2.2 < x.2.2) || (decide (x.2.2 = y.2.2) && strLe x.1 y.1)

/-- Strict version of `ratedDescTitleAsc`: equal counts force a strictly
earlier title. -/
def ratedDescTitleAscStrict (x y : String × String × Nat) : Bool :=
  decide (y.2.2 < x.2.2) || (decide (x.2.2 = y.2.2) && strLt x.1 y.1)

/-- The grouped rows of `get_most_prolific_individual_artists` before
ordering and LIMIT: for each artist, the number of its singles
(`album_id IS NULL`) whose release year lies in the range; artists with no
qualifying single produce no group (the query joins Song to Artist). -/
def prolific_entries (db : DB) (y0 y1 : Int) : List (String × Nat) :=
  db.artists.filterMap (fun a =>
    let c := (db.songs.filter (fun s =>
      s.artist_id == a.artist_id && s.album_id.isNone &&
      decide (y0 ≤ s.release_date.year) && decide (s.release_date.year ≤ y1))).length
    if c = 0 then none else some (a.name, c))

/-- Embeds `get_most_prolific_individual_artists(mydb, n, year_range)`:
`some rows` on success, `none` when the SQL fails (negative LIMIT). -/
def get_most_prolific_individual_artists (db : DB) (n : Int)
    (year_range : Int × Int) : Option (List (String × Nat)) :=
  sqlLimit n (sortLE countDescNameAsc
    (prolific_entries db year_range.1 year_range.2))

/-- The grouped rows of `get_top_song_genres` before ordering and LIMIT: for
each genre, the number of SongGenre rows pointing at it whose song exists
(the query joins Song, SongGenre and Genre; `song_id` is the Song primary
key, so each SongGenre row matches at most one Song row). -/
def genre_entries (db : DB) : List (String × Nat) :=
  db.genres.filterMap (fun g =>
    let c := (db.songGenres.filter (fun sg =>
      sg.genre_id == g.genre_id &&
      db.songs.any (fun s => s.song_id == sg.song_id))).length
    if c = 0 then none else some (g.name, c))

/-- Embeds `get_top_song_genres(mydb, n)`. -/
def get_top_song_genres (db : DB) (n : Int) : Option (List (String × Nat)) :=
  sqlLimit n (sortLE countDescNameAsc (genre_entries db))

/-- The grouped rows of `get_most_rated_songs` before ordering and LIMIT: for
each song (joined to its artist; `artist_id` is the Artist primary key), the
number of its ratings whose rating date year lies in the range. -/
def rated_entries (db : DB) (y0 y1 : Int) : List (String × String × Nat) :=
  db.songs.filterMap (fun s =>
    match db.artists.find? (fun a => a.artist_id == s.artist_id) with
    | none => none
    | some a =>
        let c := (db.ratings.filter (fun rt =>
          rt.song_id == s.song_id &&
          decide (y0 ≤ rt.rating_date.year) &&
          decide (rt.rating_date.year ≤ y1))).length
        if c = 0 then none else some (s.title, a.name, c))

/-- Embeds `get_most_rated_songs(mydb, year_range, n)`. -/
def get_most_rated_songs (db : DB) (year_range : Int × Int) (n : Int) :
    Option (List (String × String × Nat)) :=
  sqlLimit n (sortLE ratedDescTitleAsc
    (rated_entries db year_range.1 year_range.2))

/-- The Rating rows of one user whose rating date year lies in `y0..y1`; the
rows the `WHERE` clause of `get_most_engaged_users` keeps for that user. -/
def user_window_ratings (db : DB) (uid : Nat) (y0 y1 : Int) : List RatingRow :=
  db.ratings.filter (fun rt =>
    rt.user_id == uid && decide (y0 ≤ rt.rating_date.year) &&
    decide (rt.rating_date.year ≤ y1))

/-- The number of distinct songs a user rated in the window: the user's
in-window Rating rows projected to `song_id` and deduplicated. -/
def user_distinct_songs_rated (db : DB) (uid : Nat) (y0 y1 : Int) : Nat :=
  ((user_window_ratings db uid y0 y1).map (fun rt => rt.song_id)).dedup.length

/-- The grouped rows of `get_most_engaged_users` before ordering and LIMIT:
for each user, `COUNT(*)` of its in-window Rating rows. -/
def engaged_entries (db : DB) (y0 y1 : Int) : List (String × Nat) :=
  db.users.filterMap (fun u =>
    let c := (user_window_ratings db u.user_id y0 y1).length
    if c = 0 then none else some (u.username, c))

/-- Embeds `get_most_engaged_users(mydb, year_range, n)`. -/
def get_most_engaged_users (db : DB) (year_range : Int × Int) (n : Int) :
    Option (List (String × Nat)) :=
  sqlLimit n (sortLE countDescNameAsc
    (engaged_entries db year_range.1 year_range.2))

/-- One batch-load call, carrying its input; used to quantify over arbitrary
sequences of loader calls starting from the empty store. -/
inductive LoadOp where
  | singles (rs : List SingleRecord)
  | albums (rs : List AlbumRecord)
  | users (us : List String)
  | ratings (rs : List RatingRecord)

/-- Apply one loader call to the store, discarding the rejection set. -/
def applyLoadOp (db : DB) : LoadOp → DB
  | .singles rs => (load_single_songs db rs).1
  | .albums rs => (load_albums db rs).1
  | .users us => (load_users db us).1
  | .ratings rs => (load_song_ratings db rs).1

/-- The store reached from the empty store by a sequence of loader calls. -/
def runLoadOps (ops : List LoadOp) : DB :=
  ops.foldl applyLoadOp emptyDB

/-- The number of Song rows with the given artist id and title. -/
def songCount (db : DB) (artist_id : Nat) (title : String) : Nat :=
  (db.songs.filter (fun s => s.artist_id == artist_id && s.title == title)).length

/-- Basic id-freshness facts the auto-increment columns guarantee for every
store the program can produce: every row id referring to the Artist table is
below the Artist auto-increment counter. -/
def DB.idsOk (db : DB) : Bool :=
  db.artists.all (fun a => a.artist_id < db.nextArtistId) &&
  db.songs.all (fun s => s.artist_id < db.nextArtistId) &&
  db.albums.all (fun al => al.artist_id < db.nextArtistId)

/-- Whether some song of the named artist carries the given title; the
specification-level duplicate condition of `load_single_songs` ("a song with
that (artist, title) already exists"). -/
def song_exists_by_names (db : DB) (artist_name title : String) : Bool :=
  match get_artist_id db artist_name with
  | some aid => (get_song_id_by_artist_and_title db aid title).isSome
  | none => false

/-- Whether the named artist already has an album with the given title; the
specification-level duplicate condition of `load_albums`. -/
def album_exists_by_names (db : DB) (artist_name title : String) : Bool :=
  match get_artist_id db artist_name with
  | some aid => (get_album_id db aid title).isSome
  | none => false

/-- Look up a genre id by name, `none` on a miss; the lookup half of
`_get_or_create_genre`, used to state the genre-row side effects. -/
def get_genre_id (db : DB) (genre_name : String) : Option Nat :=
  (db.genres.find? (fun g => g.name == genre_name)).map (fun g => g.genre_id)

/-- Resolve `(artist_name, song_title)` to a song id the way
`load_song_ratings` does: artist by name, then song by (artist id, title). -/
def resolve_song (db : DB) (artist_name song_title : String) : Option Nat :=
  match get_artist_id db artist_name with
  | none => none
  | some aid => get_song_id_by_artist_and_title db aid song_title

/-- Condition (a) of the rating checks: the username does not resolve. -/
def rating_cond_a (db : DB) (r : RatingRecord) : Bool :=
  (get_user_id db r.username).isNone

/-- Condition (b): the artist name does not resolve. -/
def rating_cond_b (db : DB) (r : RatingRecord) : Bool :=
  (get_artist_id db r.artist_name).isNone

/-- Condition (c): `(artist_name, song_title)` does not resolve to a song. -/
def rating_cond_c (db : DB) (r : RatingRecord) : Bool :=
  (resolve_song db r.artist_name r.song_title).isNone

/-- Condition (d): the rating value lies outside `[1, 5]`. -/
def rating_cond_d (r : RatingRecord) : Bool :=
  decide (¬ (1 ≤ r.rating ∧ r.rating ≤ 5))

/-- Condition (e): the resolved (user, song) pair already has a Rating row. -/
def rating_cond_e (db : DB) (r : RatingRecord) : Bool :=
  match get_user_id db r.username, resolve_song db r.artist_name r.song_title with
  | some uid, some sid =>
      db.ratings.any (fun rt => rt.user_id == uid && rt.song_id == sid)
  | _, _ => false

/-- The cause a rating record is rejected for, mirroring the check order of
the source (user, artist, song, range, duplicate) with short-circuiting;
`none` when the record passes every check. -/
inductive RatingReject where
  | userMissing
  | artistMissing
  | songMissing
  | ratingOutOfRange
  | duplicateRating
deriving DecidableEq, Repr

/-- The first failing check of `load_song_ratings` for one record, in source
order; `none` when the record is accepted. -/
def load_song_ratings_reason (db : DB) (r : RatingRecord) : Option RatingReject :=
  match get_user_id db r.username with
  | none => some .userMissing
  | some user_id =>
      match get_artist_id db r.artist_name with
      | none => some .artistMissing
      | some artist_id =>
          match get_song_id_by_artist_and_title db artist_id r.song_title with
          | none => some .songMissing
          | some song_id =>
              if ¬ (1 ≤ r.rating ∧ r.rating ≤ 5) then some .ratingOutOfRange
              else if db.ratings.any
                  (fun rt => rt.user_id == user_id && rt.song_id == song_id) then
                some .duplicateRating
              else none

/-- The end-to-end reference store of the specification: three users, the
four reference singles, the two reference albums and the six reference
ratings, loaded from the empty store. -/
def sampleDB : DB :=
  (load_song_ratings
    (load_albums
      (load_single_songs
        (load_users emptyDB ["user1", "user2", "user3"]).1
        [⟨"Sky", ["Pop"], "Alice", ⟨2020, 1, 1⟩⟩,
         ⟨"Rock Me", ["Rock", "Pop"], "Alice", ⟨2020, 6, 15⟩⟩,
         ⟨"Jazz Night", ["Jazz"], "Bob", ⟨2021, 2, 20⟩⟩,
         ⟨"Old Hit", ["Rock"], "Carl", ⟨2019, 8, 30⟩⟩]).1
      [⟨"Alice Album", "Pop", "Alice", ⟨2019, 12, 1⟩, ["AlbumSong1", "AlbumSong2"]⟩,
       ⟨"Bob Debut", "Jazz", "Bob", ⟨2020, 10, 10⟩, ["Smooth", "Late Night"]⟩]).1
    [⟨"user1", "Alice", "Sky", 5, ⟨2020, 1, 10⟩⟩,
     ⟨"user2", "Alice", "Sky", 3, ⟨2020, 2, 10⟩⟩,
     ⟨"user1", "Alice", "Rock Me", 4, ⟨2020, 6, 20⟩⟩,
     ⟨"user2", "Bob", "Jazz Night", 5, ⟨2021, 3, 1⟩⟩,
     ⟨"user3", "Bob", "Jazz Night", 4, ⟨2021, 3, 2⟩⟩,
     ⟨"user3", "Carl", "Old Hit", 2, ⟨2019, 9, 1⟩⟩]).1

/-- A store with two distinct artists each owning a song titled "S", and one
rating on each of the two songs; reachable from the empty store by ordinary
loads. -/
def twoTitleDB : DB :=
  (load_song_ratings
    (load_single_songs (load_users emptyDB ["u1"]).1
      [⟨"S", ["Pop"], "A", ⟨2020, 1, 1⟩⟩, ⟨"S", ["Pop"], "B", ⟨2020, 1, 1⟩⟩]).1
    [⟨"u1", "A", "S", 3, ⟨2020, 2, 2⟩⟩, ⟨"u1", "B", "S", 4, ⟨2020, 3, 3⟩⟩]).1

/-- A store with one user "u1" and one song "S" by artist "A", reachable
from the empty store by ordinary loads. -/
def oneSongDB : DB :=
  (load_single_songs (load_users emptyDB ["u1"]).1
    [⟨"S", ["Pop"], "A", ⟨2020, 1, 1⟩⟩]).1

theorem insertLE_perm (le : α → α → Bool) (a : α) (l : List α) :
    List.Perm (insertLE le a l) (a :: l) := by
  induction l with
  | nil => simp only [insertLE]; exact List.Perm.refl _
  | cons b t ih =>
      by_cases h : le a b = true
      · simp only [insertLE, if_pos h]; exact List.Perm.refl _
      · simp only [insertLE, if_neg h]
        exact (ih.cons b).trans (List.Perm.swap a b t)

theorem sortLE_perm (le : α → α → Bool) (l : List α) :
    List.Perm (sortLE le l) l := by
  induction l with
  | nil => simp only [sortLE]; exact List.Perm.refl _
  | cons a t ih =>
      exact (insertLE_perm le a (sortLE le t)).trans (ih.cons a)

theorem mem_insertLE {le : α → α → Bool} {a x : α} {l : List α} :
    x ∈ insertLE le a l ↔ x = a ∨ x ∈ l := by
  rw [(insertLE_perm le a l).mem_iff, List.mem_cons]

theorem pairwise_insertLE (le : α → α → Bool)
    (htot : ∀ x y, le x y = true ∨ le y x = true)
    (htr : ∀ x y z, le x y = true → le y z = true → le x z = true)
    (a : α) {l : List α} (h : l.Pairwise (fun x y => le x y = true)) :
    (insertLE le a l).Pairwise (fun x y => le x y = true) := by
  induction l with
  | nil => simp [insertLE]
  | cons b t ih =>
      rcases List.pairwise_cons.mp h with ⟨hb, ht⟩
      by_cases hab : le a b = true
      · simp only [insertLE, if_pos hab]
        refine List.pairwise_cons.mpr ⟨?_, h⟩
        intro x hx
        rcases List.mem_cons.mp hx with rfl | hx
        · exact hab
        · exact htr a b x hab (hb x hx)
      · simp only [insertLE, if_neg hab]
        refine List.pairwise_cons.mpr ⟨?_, ih ht⟩
        intro x hx
        rcases mem_insertLE.mp hx with rfl | hx
        · exact (htot x b).resolve_left hab
        · exact hb x hx

theorem pairwise_sortLE (le : α → α → Bool)
    (htot : ∀ x y, le x y = true ∨ le y x = true)
    (htr : ∀ x y z, le x y = true → le y z = true → le x z = true)
    (l : List α) : (sortLE le l).Pairwise (fun x y => le x y = true) := by
  induction l with
  | nil => simp [sortLE]
  | cons a t ih => exact pairwise_insertLE le htot htr a ih

theorem sqlLimit_eq_none_iff {n : Int} {l : List α} :
    sqlLimit n l = none ↔ n < 0 := by
  by_cases h : n < 0 <;> simp [sqlLimit, h]

theorem sqlLimit_eq_some {n : Int} {l o : List α} (h : sqlLimit n l = some o) :
    o = l.take n.toNat := by
  by_cases hn : n < 0 <;> simp [sqlLimit, hn] at h
  exact h.symm

/-- The result rows of a sorted-and-limited query are pairwise ordered by the
sorting preorder. -/
theorem sqlLimit_sortLE_pairwise (le : α → α → Bool)
    (htot : ∀ x y, le x y = true ∨ le y x = true)
    (htr : ∀ x y z, le x y = true → le y z = true → le x z = true)
    {n : Int} {entries l : List α} (h : sqlLimit n (sortLE le entries) = some l) :
    l.Pairwise (fun x y => le x y = true) := by
  rw [sqlLimit_eq_some h]
  exact (pairwise_sortLE le htot htr entries).sublist (List.take_sublist _ _)

/-- Every result row of a sorted-and-limited query is one of the grouped
entries. -/
theorem sqlLimit_sortLE_mem (le : α → α → Bool) {n : Int} {entries l : List α}
    (h : sqlLimit n (sortLE le entries) = some l) {x : α} (hx : x ∈ l) :
    x ∈ entries := by
  rw [sqlLimit_eq_some h] at hx
  exact (sortLE_perm le entries).subset ((List.take_sublist _ _).subset hx)

/-- Sorting and limiting keeps a projection injective if it was injective on
the entries (the projected values stay pairwise distinct). -/
theorem sqlLimit_sortLE_map_nodup (le : α → α → Bool) (f : α → β) {n : Int}
    {entries l : List α} (h : sqlLimit n (sortLE le entries) = some l)
    (hnd : (entries.map f).Nodup) : (l.map f).Nodup := by
  rw [sqlLimit_eq_some h]
  have h1 : ((sortLE le entries).map f).Nodup :=
    (((sortLE_perm le entries).map f).nodup_iff).mpr hnd
  exact h1.sublist ((List.take_sublist _ _).map f)

theorem sqlLimit_sortLE_length {n : Int} (hn : 0 ≤ n) (le : α → α → Bool)
    (entries : List α) :
    ∃ l, sqlLimit n (sortLE le entries) = some l ∧
      l.length = min n.toNat entries.length := by
  refine ⟨(sortLE le entries).take n.toNat, ?_, ?_⟩
  · simp [sqlLimit, Int.not_lt.mpr hn]
  · rw [List.length_take, (sortLE_perm le entries).length_eq]

theorem charListLe_cons_iff {a b : Char} {as bs : List Char} :
    charListLe (a :: as) (b :: bs) = true ↔
      a.toNat < b.toNat ∨ (a.toNat = b.toNat ∧ charListLe as bs = true) := by
  simp only [charListLe]
  by_cases h1 : a.toNat < b.toNat
  · simp [h1]
  · by_cases h2 : b.toNat < a.toNat
    · simp only [if_neg h1, if_pos h2]
      constructor
      · intro h; simp at h
      · rintro (h | ⟨h, _⟩) <;> omega
    · have he : a.toNat = b.toNat := by omega
      simp [h1, h2, he]

theorem charListLt_cons_iff {a b : Char} {as bs : List Char} :
    charListLt (a :: as) (b :: bs) = true ↔
      a.toNat < b.toNat ∨ (a.toNat = b.toNat ∧ charListLt as bs = true) := by
  simp only [charListLt]
  by_cases h1 : a.toNat < b.toNat
  · simp [h1]
  · by_cases h2 : b.toNat < a.toNat
    · simp only [if_neg h1, if_pos h2]
      constructor
      · intro h; simp at h
      · rintro (h | ⟨h, _⟩) <;> omega
    · have he : a.toNat = b.toNat := by omega
      simp [h1, h2, he]

theorem charListLe_total : ∀ as bs : List Char,
    charListLe as bs = true ∨ charListLe bs as = true := by
  intro as
  induction as with
  | nil => intro bs; exact Or.inl rfl
  | cons a as ih =>
      intro bs
      cases bs with
      | nil => exact Or.inr rfl
      | cons b bs =>
          rcases Nat.lt_trichotomy a.toNat b.toNat with h | h | h
          · exact Or.inl (charListLe_cons_iff.mpr (Or.inl h))
          · rcases ih bs with hs | hs
            · exact Or.inl (charListLe_cons_iff.mpr (Or.inr ⟨h, hs⟩))
            · exact Or.inr (charListLe_cons_iff.mpr (Or.inr ⟨h.symm, hs⟩))
          · exact Or.inr (charListLe_cons_iff.mpr (Or.inl h))

theorem charListLe_trans : ∀ as bs cs : List Char,
    charListLe as bs = true → charListLe bs cs = true →
    charListLe as cs = true := by
  intro as
  induction as with
  | nil => intro bs cs h1 h2; rfl
  | cons a as ih =>
      intro bs cs h1 h2
      cases bs with
      | nil => simp [charListLe] at h1
      | cons b bs =>
          cases cs with
          | nil => simp [charListLe] at h2
          | cons c cs =>
              rcases charListLe_cons_iff.mp h1 with hl1 | ⟨he1, hr1⟩ <;>
                rcases charListLe_cons_iff.mp h2 with hl2 | ⟨he2, hr2⟩
              · exact charListLe_cons_iff.mpr (Or.inl (hl1.trans hl2))
              · exact charListLe_cons_iff.mpr (Or.inl (he2 ▸ hl1))
              · exact charListLe_cons_iff.mpr (Or.inl (he1 ▸ hl2))
              · exact charListLe_cons_iff.mpr
                  (Or.inr ⟨he1.trans he2, ih bs cs hr1 hr2⟩)

theorem charListLt_of_le_of_ne : ∀ as bs : List Char,
    charListLe as bs = true → as ≠ bs → charListLt as bs = true := by
  intro as
  induction as with
  | nil =>
      intro bs h hne
      cases bs with
      | nil => exact absurd rfl hne
      | cons b bs => rfl
  | cons a as ih =>
      intro bs h hne
      cases bs with
      | nil => simp [charListLe] at h
      | cons b bs =>
          rcases charListLe_cons_iff.mp h with h1 | ⟨he, h2⟩
          · exact charListLt_cons_iff.mpr (Or.inl h1)
          · have hab : a = b := Char.eq_of_val_eq (UInt32.ext he)
            subst hab
            have hne2 : as ≠ bs := by
              intro hh; exact hne (by rw [hh])
            exact charListLt_cons_iff.mpr (Or.inr ⟨he, ih bs h2 hne2⟩)

theorem strLe_total (a b : String) : strLe a b = true ∨ strLe b a = true :=
  charListLe_total a.data b.data

theorem strLe_trans {a b c : String} (h1 : strLe a b = true)
    (h2 : strLe b c = true) : strLe a c = true :=
  charListLe_trans a.data b.data c.data h1 h2

theorem strLt_of_le_of_ne {a b : String} (h : strLe a b = true) (hne : a ≠ b) :
    strLt a b = true := by
  refine charListLt_of_le_of_ne a.data b.data h ?_
  intro hd
  apply hne
  cases a; cases b
  simp only at hd
  rw [hd]

theorem countDescNameAsc_total (x y : String × Nat) :
    countDescNameAsc x y = true ∨ countDescNameAsc y x = true := by
  unfold countDescNameAsc
  simp only [Bool.or_eq_true, Bool.and_eq_true, decide_eq_true_eq]
  rcases Nat.lt_trichotomy x.2 y.2 with h | h | h
  · exact Or.inr (Or.inl h)
  · rcases strLe_total x.1 y.1 with hs | hs
    · exact Or.inl (Or.inr ⟨h, hs⟩)
    · exact Or.inr (Or.inr ⟨h.symm, hs⟩)
  · exact Or.inl (Or.inl h)

theorem countDescNameAsc_trans (x y z : String × Nat) :
    countDescNameAsc x y = true → countDescNameAsc y z = true →
    countDescNameAsc x z = true := by
  unfold countDescNameAsc
  simp only [Bool.or_eq_true, Bool.and_eq_true, decide_eq_true_eq]
  rintro (h1 | ⟨h1, h1s⟩) (h2 | ⟨h2, h2s⟩)
  · exact Or.inl (h2.trans h1)
  · exact Or.inl (h2 ▸ h1)
  · exact Or.inl (h1 ▸ h2)
  · exact Or.inr ⟨h1.trans h2, strLe_trans h1s h2s⟩

theorem ratedDescTitleAsc_total (x y : String × String × Nat) :
    ratedDescTitleAsc x y = true ∨ ratedDescTitleAsc y x = true := by
  unfold ratedDescTitleAsc
  simp only [Bool.or_eq_true, Bool.and_eq_true, decide_eq_true_eq]
  rcases Nat.lt_trichotomy x.2.2 y.2.2 with h | h | h
  · exact Or.inr (Or.inl h)
  · rcases strLe_total x.1 y.1 with hs | hs
    · exact Or.inl (Or.inr ⟨h, hs⟩)
    · exact Or.inr (Or.inr ⟨h.symm, hs⟩)
  · exact Or.inl (Or.inl h)

/-- A `filterMap` that keeps a row's name exactly when its count is nonzero
projects to a sublist of the row names; used to carry name uniqueness from a
table into the grouped query entries. -/
theorem filterMap_count_names_sublist (rows : List ρ) (f : ρ → String)
    (c : ρ → Nat) :
    List.Sublist
      ((rows.filterMap
        (fun a => if c a = 0 then none else some (f a, c a))).map Prod.fst)
      (rows.map f) := by
  induction rows with
  | nil => simp
  | cons a t ih =>
      simp only [List.filterMap_cons, List.map_cons]
      by_cases h : c a = 0
      · rw [if_pos h]
        exact ih.cons (f a)
      · rw [if_neg h]
        simp only [List.map_cons]
        exact ih.cons₂ (f a)

theorem prolific_entries_names_sublist (db : DB) (y0 y1 : Int) :
    List.Sublist ((prolific_entries db y0 y1).map Prod.fst)
      (db.artists.map ArtistRow.name) :=
  filterMap_count_names_sublist db.artists ArtistRow.name _

theorem genre_entries_names_sublist (db : DB) :
    List.Sublist ((genre_entries db).map Prod.fst)
      (db.genres.map GenreRow.name) :=
  filterMap_count_names_sublist db.genres GenreRow.name _

theorem engaged_entries_names_sublist (db : DB) (y0 y1 : Int) :
    List.Sublist ((engaged_entries db y0 y1).map Prod.fst)
      (db.users.map UserRow.username) :=
  filterMap_count_names_sublist db.users UserRow.username _

/-- Rows ordered by count-descending/name-ascending whose names are pairwise
distinct are ordered strictly: equal counts force strictly increasing names. -/
theorem pairwise_strict_of_nodup {l : List (String × Nat)}
    (hp : l.Pairwise (fun x y => countDescNameAsc x y = true))
    (hnd : (l.map Prod.fst).Nodup) :
    l.Pairwise (fun x y => countDescNameAscStrict x y = true) := by
  have hne : l.Pairwise (fun x y => x.1 ≠ y.1) := List.pairwise_map.mp hnd
  refine (hp.and hne).imp ?_
  rintro a b ⟨hab, hne2⟩
  unfold countDescNameAsc at hab
  unfold countDescNameAscStrict
  simp only [Bool.or_eq_true, Bool.and_eq_true, decide_eq_true_eq] at hab ⊢
  rcases hab with h | ⟨h, hs⟩
  · exact Or.inl h
  · exact Or.inr ⟨h, strLt_of_le_of_ne hs hne2⟩

theorem ratedDescTitleAsc_trans (x y z : String × String × Nat) :
    ratedDescTitleAsc x y = true → ratedDescTitleAsc y z = true →
    ratedDescTitleAsc x z = true := by
  unfold ratedDescTitleAsc
  simp only [Bool.or_eq_true, Bool.and_eq_true, decide_eq_true_eq]
  rintro (h1 | ⟨h1, h1s⟩) (h2 | ⟨h2, h2s⟩)
  · exact Or.inl (h2.trans h1)
  · exact Or.inl (h2 ▸ h1)
  · exact Or.inl (h1 ▸ h2)
  · exact Or.inr ⟨h1.trans h2, strLe_trans h1s h2s⟩

/-- C5 counterexample: in a store where two different artists each have a
song titled "S" and each song has one in-window rating, topRatedSongs
returns two entries with equal counts and equal titles, so the entries are
not in strictly ascending lexicographic title order; the claim fails as
stated for topRatedSongs. -/
theorem c5_counterexample :
    get_most_rated_songs twoTitleDB (2019, 2021) 10 =
      some [("S", "A", 1), ("S", "B", 1)] ∧
    ¬ ([("S", "A", 1), ("S", "B", 1)] :
        List (String × String × Nat)).Pairwise
        (fun x y => ratedDescTitleAscStrict x y = true) := by
  constructor
  · decide
  · decide

/-- C5 (amended): every ranking query orders its result rows by count
descending with the tie-break name field ascending; for the three queries
whose tie-break field is a unique column (artist name, genre name, username)
equal counts force strictly ascending names, while for topRatedSongs two
distinct songs may share a title, so equal-count entries are only in
non-decreasing title order. -/
theorem c5_ranking_order (db : DB) (y0 y1 n : Int) :
    (∀ l, get_most_prolific_individual_artists db n (y0, y1) = some l →
      l.Pairwise (fun x y => countDescNameAsc x y = true) ∧
      ((db.artists.map ArtistRow.name).Nodup →
        l.Pairwise (fun x y => countDescNameAscStrict x y = true))) ∧
    (∀ l, get_top_song_genres db n = some l →
      l.Pairwise (fun x y => countDescNameAsc x y = true) ∧
      ((db.genres.map GenreRow.name).Nodup →
        l.Pairwise (fun x y => countDescNameAscStrict x y = true))) ∧
    (∀ l, get_most_rated_songs db (y0, y1) n = some l →
      l.Pairwise (fun x y => ratedDescTitleAsc x y = true)) ∧
    (∀ l, get_most_engaged_users db (y0, y1) n = some l →
      l.Pairwise (fun x y => countDescNameAsc x y = true) ∧
      ((db.users.map UserRow.username).Nodup →
        l.Pairwise (fun x y => countDescNameAscStrict x y = true))) := by
  refine ⟨?_, ?_, ?_, ?_⟩
  · intro l hl
    have hp := sqlLimit_sortLE_pairwise _ countDescNameAsc_total
      countDescNameAsc_trans hl
    refine ⟨hp, fun hnd => ?_⟩
    exact pairwise_strict_of_nodup hp
      (sqlLimit_sortLE_map_nodup _ Prod.fst hl
        (hnd.sublist (prolific_entries_names_sublist db y0 y1)))
  · intro l hl
    have hp := sqlLimit_sortLE_pairwise _ countDescNameAsc_total
      countDescNameAsc_trans hl
    refine ⟨hp, fun hnd => ?_⟩
    exact pairwise_strict_of_nodup hp
      (sqlLimit_sortLE_map_nodup _ Prod.fst hl
        (hnd.sublist (genre_entries_names_sublist db)))
  · intro l hl
    exact sqlLimit_sortLE_pairwise _ ratedDescTitleAsc_total
      ratedDescTitleAsc_trans hl
  · intro l hl
    have hp := sqlLimit_sortLE_pairwise _ countDescNameAsc_total
      countDescNameAsc_trans hl
    refine ⟨hp, fun hnd => ?_⟩
    exact pairwise_strict_of_nodup hp
      (sqlLimit_sortLE_map_nodup _ Prod.fst hl
        (hnd.sublist (engaged_entries_names_sublist db y0 y1)))

/-- C5 witness: on the reference store, the prolific-artists query returns a
concrete list that the amended theorem shows to be strictly ordered. -/
theorem c5_witness :
    get_most_prolific_individual_artists sampleDB 3 (2019, 2021) =
      some [("Alice", 2), ("Bob", 1), ("Carl", 1)] ∧
    (sampleDB.artists.map ArtistRow.name).Nodup ∧
    ([("Alice", 2), ("Bob", 1), ("Carl", 1)] :
      List (String × Nat)).Pairwise
      (fun x y => countDescNameAscStrict x y = true) :=
  ⟨by decide, by decide,
    ((c5_ranking_order sampleDB 2019 2021 3).1 _ (by decide)).2 (by decide)⟩

/-- C6 counterexample: with n = -1 every top-n query propagates the MySQL
syntax error that `LIMIT -1` provokes (the Python call raises a
ProgrammingError, modelled as `none`); in particular no query returns the
empty result the claim promises for negative n. -/
theorem c6_counterexample :
    get_most_prolific_individual_artists emptyDB (-1) (2019, 2021) = none ∧
    get_top_song_genres emptyDB (-1) = none ∧
    get_most_rated_songs emptyDB (2019, 2021) (-1) = none ∧
    get_most_engaged_users emptyDB (2019, 2021) (-1) = none ∧
    ¬ get_most_prolific_individual_artists emptyDB (-1) (2019, 2021) = some [] := by
  decide

/-- C6 (amended): for n = 0 every top-n query returns the empty result
without error; for negative n the interpolated `LIMIT -1` is a MySQL syntax
error, so the call raises instead of returning a result; for nonnegative n
each query returns exactly min(n, number of qualifying entities) entries —
at most n, and all qualifying entities when fewer than n qualify. -/
theorem c6_limit_behavior (db : DB) (n y0 y1 : Int) :
    (n < 0 →
      get_most_prolific_individual_artists db n (y0, y1) = none ∧
      get_top_song_genres db n = none ∧
      get_most_rated_songs db (y0, y1) n = none ∧
      get_most_engaged_users db (y0, y1) n = none) ∧
    (n = 0 →
      get_most_prolific_individual_artists db n (y0, y1) = some [] ∧
      get_top_song_genres db n = some [] ∧
      get_most_rated_songs db (y0, y1) n = some [] ∧
      get_most_engaged_users db (y0, y1) n = some []) ∧
    (0 ≤ n →
      (∃ l, get_most_prolific_individual_artists db n (y0, y1) = some l ∧
        l.length = min n.toNat (prolific_entries db y0 y1).length) ∧
      (∃ l, get_top_song_genres db n = some l ∧
        l.length = min n.toNat (genre_entries db).length) ∧
      (∃ l, get_most_rated_songs db (y0, y1) n = some l ∧
        l.length = min n.toNat (rated_entries db y0 y1).length) ∧
      (∃ l, get_most_engaged_users db (y0, y1) n = some l ∧
        l.length = min n.toNat (engaged_entries db y0 y1).length)) := by
  refine ⟨?_, ?_, ?_⟩
  · intro h
    refine ⟨?_, ?_, ?_, ?_⟩ <;>
      simp [get_most_prolific_individual_artists, get_top_song_genres,
        get_most_rated_songs, get_most_engaged_users, sqlLimit, h]
  · rintro rfl
    refine ⟨?_, ?_, ?_, ?_⟩ <;>
      simp [get_most_prolific_individual_artists, get_top_song_genres,
        get_most_rated_songs, get_most_engaged_users, sqlLimit]
  · intro h
    exact ⟨sqlLimit_sortLE_length h _ _, sqlLimit_sortLE_length h _ _,
      sqlLimit_sortLE_length h _ _, sqlLimit_sortLE_length h _ _⟩

theorem get_or_create_artist_songs (db : DB) (n : String) :
    (get_or_create_artist db n).1.songs = db.songs := by
  unfold get_or_create_artist
  cases db.artists.find? (fun a => a.name == n) <;> rfl

theorem get_or_create_genre_songs (db : DB) (n : String) :
    (get_or_create_genre db n).1.songs = db.songs := by
  unfold get_or_create_genre
  cases db.genres.find? (fun g => g.name == n) <;> rfl

theorem insert_single_genres_songs (sid : Nat) (gs : List String) : ∀ db : DB,
    (insert_single_genres db sid gs).songs = db.songs := by
  induction gs with
  | nil => intro db; rfl
  | cons g t ih =>
      intro db
      unfold insert_single_genres
      by_cases hc : t.contains g = true
      · rw [if_pos hc]; exact ih db
      · rw [if_neg hc]
        rw [ih _]
        exact (get_or_create_genre_songs db g)

theorem songCount_eq_of_songs_eq {db1 db2 : DB} (h : db1.songs = db2.songs)
    (aid : Nat) (t : String) : songCount db1 aid t = songCount db2 aid t := by
  unfold songCount; rw [h]

theorem get_song_eq_of_songs_eq {db1 db2 : DB} (h : db1.songs = db2.songs)
    (aid : Nat) (t : String) :
    get_song_id_by_artist_and_title db1 aid t =
      get_song_id_by_artist_and_title db2 aid t := by
  unfold get_song_id_by_artist_and_title; rw [h]

/-- A failed song lookup means no Song row carries that (artist, title). -/
theorem songCount_eq_zero_of_none {db : DB} {aid : Nat} {t : String}
    (h : get_song_id_by_artist_and_title db aid t = none) :
    songCount db aid t = 0 := by
  unfold get_song_id_by_artist_and_title at h
  have h2 : db.songs.find? (fun s => s.artist_id == aid && s.title == t) = none :=
    Option.map_eq_none'.mp h
  unfold songCount
  rw [List.length_eq_zero, List.filter_eq_nil_iff]
  exact List.find?_eq_none.mp h2

/-- Appending one Song row whose (artist, title) was absent preserves the
at-most-one-row-per-key property. -/
theorem songCount_le_one_insert {db db2 : DB} {s : SongRow}
    (h : ∀ a t, songCount db a t ≤ 1)
    (h0 : songCount db s.artist_id s.title = 0)
    (hs : db2.songs = db.songs ++ [s]) :
    ∀ a t, songCount db2 a t ≤ 1 := by
  intro a t
  unfold songCount at h h0 ⊢
  rw [hs, List.filter_append, List.length_append]
  by_cases hm : (s.artist_id == a && s.title == t) = true
  · have hm2 := hm
    simp only [Bool.and_eq_true, beq_iff_eq] at hm2
    rcases hm2 with ⟨h1, h2⟩
    subst h1
    subst h2
    rw [h0]
    simp [List.filter_cons, hm]
  · have hone : (List.filter (fun x => x.artist_id == a && x.title == t) [s]).length = 0 := by
      simp [List.filter_cons, hm]
    rw [hone]
    simpa using h a t

/-- Case analysis on processing one single: the store is unchanged (empty
genre set or duplicate song) or exactly one Song row with a fresh (artist,
title) and null album is appended. -/
theorem load_single_songs_step_songs (db : DB) (r : SingleRecord) :
    (load_single_songs_step db r).1.songs = db.songs ∨
    ∃ s : SongRow, s.title = r.title ∧ s.album_id = none ∧
      songCount db s.artist_id s.title = 0 ∧
      (load_single_songs_step db r).1.songs = db.songs ++ [s] := by
  unfold load_single_songs_step
  by_cases hg : r.genres.isEmpty
  · rw [if_pos hg]; exact Or.inl rfl
  · rw [if_neg hg]
    dsimp only
    cases hf : get_song_id_by_artist_and_title (get_or_create_artist db r.artist_name).1
        (get_or_create_artist db r.artist_name).2 r.title with
    | some sid =>
        exact Or.inl (get_or_create_artist_songs db r.artist_name)
    | none =>
        right
        refine ⟨⟨(get_or_create_artist db r.artist_name).1.nextSongId, r.title,
          (get_or_create_artist db r.artist_name).2, none, r.release_date⟩, rfl, rfl, ?_, ?_⟩
        · have hz := songCount_eq_zero_of_none hf
          rw [songCount_eq_of_songs_eq (get_or_create_artist_songs db r.artist_name).symm]
          exact hz
        · rw [insert_single_genres_songs]
          dsimp only
          rw [get_or_create_artist_songs db r.artist_name]

/-- Case analysis on processing one album track: an existing (artist, title)
leaves the store untouched, otherwise exactly the new Song row (with the
album id) is appended and linked to the album genre. -/
theorem load_albums_track_cases (aid alid gid : Nat) (d : Date) (db : DB)
    (t : String) :
    (get_song_id_by_artist_and_title db aid t ≠ none ∧
      load_albums_track aid alid gid d db t = db) ∨
    (get_song_id_by_artist_and_title db aid t = none ∧
      load_albums_track aid alid gid d db t =
        insertSongGenre
          { db with songs := db.songs ++ [⟨db.nextSongId, t, aid, some alid, d⟩]
                    nextSongId := db.nextSongId + 1 }
          db.nextSongId gid) := by
  unfold load_albums_track
  cases hf : get_song_id_by_artist_and_title db aid t with
  | some sid => exact Or.inl ⟨by simp, rfl⟩
  | none => exact Or.inr ⟨rfl, rfl⟩

theorem load_albums_track_inv {db : DB} (h : ∀ a t, songCount db a t ≤ 1)
    (aid alid gid : Nat) (d : Date) (t0 : String) :
    ∀ a t, songCount (load_albums_track aid alid gid d db t0) a t ≤ 1 := by
  rcases load_albums_track_cases aid alid gid d db t0 with ⟨_, heq⟩ | ⟨hz, heq⟩
  · rw [heq]; exact h
  · rw [heq]
    exact songCount_le_one_insert h (songCount_eq_zero_of_none hz) rfl

theorem load_albums_tracks_inv (aid alid gid : Nat) (d : Date)
    (ts : List String) : ∀ db : DB, (∀ a t, songCount db a t ≤ 1) →
    ∀ a t, songCount (load_albums_tracks aid alid gid d db ts) a t ≤ 1 := by
  induction ts with
  | nil => intro db h; exact h
  | cons t0 ts ih =>
      intro db h
      unfold load_albums_tracks
      rw [List.foldl_cons]
      exact ih _ (load_albums_track_inv h aid alid gid d t0)

theorem load_single_songs_step_inv {db : DB} (h : ∀ a t, songCount db a t ≤ 1)
    (r : SingleRecord) :
    ∀ a t, songCount (load_single_songs_step db r).1 a t ≤ 1 := by
  rcases load_single_songs_step_songs db r with hs | ⟨s, _, _, h0, hs⟩
  · intro a t
    rw [songCount_eq_of_songs_eq hs]
    exact h a t
  · exact songCount_le_one_insert h h0 hs

theorem load_single_songs_inv (rs : List SingleRecord) : ∀ db : DB,
    (∀ a t, songCount db a t ≤ 1) →
    ∀ a t, songCount (load_single_songs db rs).1 a t ≤ 1 := by
  induction rs with
  | nil => intro db h; exact h
  | cons r rs ih =>
      intro db h
      unfold load_single_songs
      exact ih _ (load_single_songs_step_inv h r)

theorem load_albums_step_inv {db : DB} (h : ∀ a t, songCount db a t ≤ 1)
    (r : AlbumRecord) :
    ∀ a t, songCount (load_albums_step db r).1 a t ≤ 1 := by
  unfold load_albums_step
  dsimp only
  have hsongs : (get_or_create_genre (get_or_create_artist db r.artist_name).1
      r.album_genre).1.songs = db.songs := by
    rw [get_or_create_genre_songs, get_or_create_artist_songs]
  cases hf : get_album_id (get_or_create_genre (get_or_create_artist db
      r.artist_name).1 r.album_genre).1 (get_or_create_artist db r.artist_name).2
      r.album_title with
  | some alid =>
      intro a t
      rw [songCount_eq_of_songs_eq hsongs]
      exact h a t
  | none =>
      apply load_albums_tracks_inv
      intro a t
      have : ({ (get_or_create_genre (get_or_create_artist db r.artist_name).1
          r.album_genre).1 with
            albums := (get_or_create_genre (get_or_create_artist db
              r.artist_name).1 r.album_genre).1.albums ++
              [⟨(get_or_create_genre (get_or_create_artist db r.artist_name).1
                  r.album_genre).1.nextAlbumId, r.album_title,
                (get_or_create_artist db r.artist_name).2, r.release_date,
                (get_or_create_genre (get_or_create_artist db r.artist_name).1
                  r.album_genre).2⟩]
            nextAlbumId := (get_or_create_genre (get_or_create_artist db
              r.artist_name).1 r.album_genre).1.nextAlbumId + 1 } : DB).songs
          = db.songs := hsongs
      rw [songCount_eq_of_songs_eq this]
      exact h a t

theorem load_albums_inv (rs : List AlbumRecord) : ∀ db : DB,
    (∀ a t, songCount db a t ≤ 1) →
    ∀ a t, songCount (load_albums db rs).1 a t ≤ 1 := by
  induction rs with
  | nil => intro db h; exact h
  | cons r rs ih =>
      intro db h
      unfold load_albums
      exact ih _ (load_albums_step_inv h r)

theorem load_users_from_songs (us : List String) : ∀ (db : DB) (seen : List String),
    (load_users_from db seen us).1.songs = db.songs := by
  induction us with
  | nil => intro db seen; rfl
  | cons u us ih =>
      intro db seen
      unfold load_users_from
      by_cases hc : seen.contains u = true
      · rw [if_pos hc]; exact ih db seen
      · rw [if_neg hc]
        cases get_user_id db u with
        | some uid => exact ih db (seen ++ [u])
        | none => exact ih _ (seen ++ [u])

/-- C10 core: a rejected rating record leaves the store exactly as it was
(the loader only performs lookups before deciding), and an accepted record
appends exactly one Rating row for the resolved user and song. -/
theorem load_song_ratings_step_frame (db : DB) (r : RatingRecord) :
    ((load_song_ratings_step db r).2.isSome = true →
      (load_song_ratings_step db r).1 = db) ∧
    ((load_song_ratings_step db r).2 = none →
      ∃ uid sid, get_user_id db r.username = some uid ∧
        resolve_song db r.artist_name r.song_title = some sid ∧
        (load_song_ratings_step db r).1 =
          { db with ratings := db.ratings ++
              [⟨uid, sid, r.rating, r.rating_date⟩] }) := by
  cases hu : get_user_id db r.username with
  | none =>
      refine ⟨fun _ => ?_, fun hh => ?_⟩
      · simp [load_song_ratings_step, hu]
      · rw [show (load_song_ratings_step db r).2 = some (ratingKey r) from by
            simp [load_song_ratings_step, hu]] at hh
        exact Option.noConfusion hh
  | some uid =>
      cases ha : get_artist_id db r.artist_name with
      | none =>
          refine ⟨fun _ => ?_, fun hh => ?_⟩
          · simp [load_song_ratings_step, hu, ha]
          · rw [show (load_song_ratings_step db r).2 = some (ratingKey r) from by
                simp [load_song_ratings_step, hu, ha]] at hh
            exact Option.noConfusion hh
      | some aid =>
          cases hs : get_song_id_by_artist_and_title db aid r.song_title with
          | none =>
              refine ⟨fun _ => ?_, fun hh => ?_⟩
              · simp [load_song_ratings_step, hu, ha, hs]
              · rw [show (load_song_ratings_step db r).2 = some (ratingKey r) from by
                    simp [load_song_ratings_step, hu, ha, hs]] at hh
                exact Option.noConfusion hh
          | some sid =>
              by_cases hr : 1 ≤ r.rating ∧ r.rating ≤ 5
              · by_cases hd : db.ratings.any
                    (fun rt => rt.user_id == uid && rt.song_id == sid) = true
                · refine ⟨fun _ => ?_, fun hh => ?_⟩
                  · simp [load_song_ratings_step, hu, ha, hs, hr, hd]
                  · rw [show (load_song_ratings_step db r).2 = some (ratingKey r) from by
                        simp [load_song_ratings_step, hu, ha, hs, hr, hd]] at hh
                    exact Option.noConfusion hh
                · refine ⟨fun hh => ?_, fun _ => ⟨uid, sid, rfl, ?_, ?_⟩⟩
                  · rw [show (load_song_ratings_step db r).2 = none from by
                        simp [load_song_ratings_step, hu, ha, hs, hr, hd]] at hh
                    exact Bool.noConfusion hh
                  · unfold resolve_song
                    rw [ha]
                    exact hs
                  · simp [load_song_ratings_step, hu, ha, hs, hr, hd]
              · refine ⟨fun _ => ?_, fun hh => ?_⟩
                · simp [load_song_ratings_step, hu, ha, hs, hr]
                · rw [show (load_song_ratings_step db r).2 = some (ratingKey r) from by
                      simp [load_song_ratings_step, hu, ha, hs, hr]] at hh
                  exact Option.noConfusion hh

theorem load_song_ratings_step_songs (db : DB) (r : RatingRecord) :
    (load_song_ratings_step db r).1.songs = db.songs := by
  cases h2 : (load_song_ratings_step db r).2 with
  | some k =>
      rw [(load_song_ratings_step_frame db r).1 (by rw [h2]; rfl)]
  | none =>
      rcases (load_song_ratings_step_frame db r).2 h2 with ⟨uid, sid, _, _, heq⟩
      rw [heq]

theorem load_song_ratings_songs (rs : List RatingRecord) : ∀ db : DB,
    (load_song_ratings db rs).1.songs = db.songs := by
  induction rs with
  | nil => intro db; rfl
  | cons r rs ih =>
      intro db
      unfold load_song_ratings
      rw [ih _, load_song_ratings_step_songs]

theorem idsOk_components {db : DB} (h : db.idsOk = true) :
    (∀ a ∈ db.artists, a.artist_id < db.nextArtistId) ∧
    (∀ s ∈ db.songs, s.artist_id < db.nextArtistId) ∧
    (∀ al ∈ db.albums, al.artist_id < db.nextArtistId) := by
  unfold DB.idsOk at h
  simp only [Bool.and_eq_true, List.all_eq_true, decide_eq_true_eq] at h
  exact ⟨h.1.1, h.1.2, h.2⟩

theorem idsOk_intro {db : DB}
    (h1 : ∀ a ∈ db.artists, a.artist_id < db.nextArtistId)
    (h2 : ∀ s ∈ db.songs, s.artist_id < db.nextArtistId)
    (h3 : ∀ al ∈ db.albums, al.artist_id < db.nextArtistId) :
    db.idsOk = true := by
  unfold DB.idsOk
  simp only [Bool.and_eq_true, List.all_eq_true, decide_eq_true_eq]
  exact ⟨⟨h1, h2⟩, h3⟩

theorem idsOk_gcArtist {db : DB} (h : db.idsOk = true) (n : String) :
    (get_or_create_artist db n).1.idsOk = true := by
  obtain ⟨h1, h2, h3⟩ := idsOk_components h
  unfold get_or_create_artist
  cases db.artists.find? (fun a => a.name == n) with
  | some a => exact h
  | none =>
      dsimp only
      apply idsOk_intro
      · intro a ha
        rcases List.mem_append.mp ha with ha | ha
        · exact Nat.lt_succ_of_lt (h1 a ha)
        · simp only [List.mem_singleton] at ha
          subst ha
          exact Nat.lt_succ_self _
      · intro s hs
        exact Nat.lt_succ_of_lt (h2 s hs)
      · intro al hal
        exact Nat.lt_succ_of_lt (h3 al hal)

theorem idsOk_gcGenre {db : DB} (h : db.idsOk = true) (n : String) :
    (get_or_create_genre db n).1.idsOk = true := by
  unfold get_or_create_genre
  cases db.genres.find? (fun g => g.name == n) with
  | some g => exact h
  | none => exact h

theorem gcArtist_id_lt {db : DB} (h : db.idsOk = true) (n : String) :
    (get_or_create_artist db n).2 < (get_or_create_artist db n).1.nextArtistId := by
  obtain ⟨h1, _, _⟩ := idsOk_components h
  unfold get_or_create_artist
  cases hf : db.artists.find? (fun a => a.name == n) with
  | some a => exact h1 a (List.mem_of_find?_eq_some hf)
  | none => exact Nat.lt_succ_self _

theorem gcArtist_frame (db : DB) (n : String) :
    (get_or_create_artist db n).1.genres = db.genres ∧
    (get_or_create_artist db n).1.albums = db.albums ∧
    (get_or_create_artist db n).1.users = db.users ∧
    (get_or_create_artist db n).1.ratings = db.ratings ∧
    (get_or_create_artist db n).1.songGenres = db.songGenres ∧
    (get_or_create_artist db n).1.nextAlbumId = db.nextAlbumId ∧
    (get_or_create_artist db n).1.nextGenreId = db.nextGenreId ∧
    (get_or_create_artist db n).1.nextSongId = db.nextSongId := by
  unfold get_or_create_artist
  cases db.artists.find? (fun a => a.name == n) with
  | some a => exact ⟨rfl, rfl, rfl, rfl, rfl, rfl, rfl, rfl⟩
  | none => exact ⟨rfl, rfl, rfl, rfl, rfl, rfl, rfl, rfl⟩

theorem gcGenre_frame (db : DB) (n : String) :
    (get_or_create_genre db n).1.artists = db.artists ∧
    (get_or_create_genre db n).1.albums = db.albums ∧
    (get_or_create_genre db n).1.users = db.users ∧
    (get_or_create_genre db n).1.ratings = db.ratings ∧
    (get_or_create_genre db n).1.songGenres = db.songGenres ∧
    (get_or_create_genre db n).1.nextArtistId = db.nextArtistId ∧
    (get_or_create_genre db n).1.nextAlbumId = db.nextAlbumId ∧
    (get_or_create_genre db n).1.nextSongId = db.nextSongId := by
  unfold get_or_create_genre
  cases db.genres.find? (fun g => g.name == n) with
  | some g => exact ⟨rfl, rfl, rfl, rfl, rfl, rfl, rfl, rfl⟩
  | none => exact ⟨rfl, rfl, rfl, rfl, rfl, rfl, rfl, rfl⟩

theorem idsOk_insert_single_genres (sid : Nat) (gs : List String) : ∀ db : DB,
    db.idsOk = true → (insert_single_genres db sid gs).idsOk = true := by
  induction gs with
  | nil => intro db h; exact h
  | cons g t ih =>
      intro db h
      unfold insert_single_genres
      by_cases hc : t.contains g = true
      · rw [if_pos hc]; exact ih db h
      · rw [if_neg hc]
        exact ih _ (idsOk_gcGenre h g)

theorem idsOk_singles_step {db : DB} (h : db.idsOk = true) (r : SingleRecord) :
    (load_single_songs_step db r).1.idsOk = true := by
  unfold load_single_songs_step
  by_cases hg : r.genres.isEmpty
  · rw [if_pos hg]; exact h
  · rw [if_neg hg]
    dsimp only
    cases hf : get_song_id_by_artist_and_title
        (get_or_create_artist db r.artist_name).1
        (get_or_create_artist db r.artist_name).2 r.title with
    | some sid => exact idsOk_gcArtist h r.artist_name
    | none =>
        apply idsOk_insert_single_genres
        obtain ⟨h1, h2, h3⟩ := idsOk_components (idsOk_gcArtist h r.artist_name)
        apply idsOk_intro
        · exact h1
        · intro s hs
          rcases List.mem_append.mp hs with hs | hs
          · exact h2 s hs
          · simp only [List.mem_singleton] at hs
            subst hs
            exact gcArtist_id_lt h r.artist_name
        · exact h3

theorem idsOk_load_single_songs (rs : List SingleRecord) : ∀ db : DB,
    db.idsOk = true → (load_single_songs db rs).1.idsOk = true := by
  induction rs with
  | nil => intro db h; exact h
  | cons r rs ih => intro db h; exact ih _ (idsOk_singles_step h r)

theorem idsOk_albums_track {db : DB} {aid : Nat} (h : db.idsOk = true)
    (ha : aid < db.nextArtistId) (alid gid : Nat) (d : Date) (t : String) :
    (load_albums_track aid alid gid d db t).idsOk = true ∧
    aid < (load_albums_track aid alid gid d db t).nextArtistId := by
  rcases load_albums_track_cases aid alid gid d db t with ⟨_, heq⟩ | ⟨_, heq⟩ <;>
    rw [heq]
  · exact ⟨h, ha⟩
  · obtain ⟨h1, h2, h3⟩ := idsOk_components h
    refine ⟨?_, ha⟩
    apply idsOk_intro
    · exact h1
    · intro s hs
      rcases List.mem_append.mp hs with hs | hs
      · exact h2 s hs
      · simp only [List.mem_singleton] at hs
        subst hs
        exact ha
    · exact h3

theorem idsOk_albums_tracks (alid gid : Nat) (d : Date) (ts : List String) :
    ∀ (db : DB) (aid : Nat), db.idsOk = true → aid < db.nextArtistId →
    (load_albums_tracks aid alid gid d db ts).idsOk = true := by
  induction ts with
  | nil => intro db aid h _; exact h
  | cons t0 ts ih =>
      intro db aid h ha
      unfold load_albums_tracks
      rw [List.foldl_cons]
      obtain ⟨h2, ha2⟩ := idsOk_albums_track h ha alid gid d t0
      exact ih _ aid h2 ha2

theorem gcGenre_nextArtistId (db : DB) (n : String) :
    (get_or_create_genre db n).1.nextArtistId = db.nextArtistId :=
  (gcGenre_frame db n).2.2.2.2.2.1

theorem idsOk_albums_step {db : DB} (h : db.idsOk = true) (r : AlbumRecord) :
    (load_albums_step db r).1.idsOk = true := by
  unfold load_albums_step
  dsimp only
  have hga : (get_or_create_artist db r.artist_name).1.idsOk = true :=
    idsOk_gcArtist h r.artist_name
  have hgg := idsOk_gcGenre hga r.album_genre
  have haid : (get_or_create_artist db r.artist_name).2 <
      (get_or_create_genre (get_or_create_artist db r.artist_name).1
        r.album_genre).1.nextArtistId := by
    rw [gcGenre_nextArtistId]
    exact gcArtist_id_lt h r.artist_name
  cases hf : get_album_id
      (get_or_create_genre (get_or_create_artist db r.artist_name).1
        r.album_genre).1
      (get_or_create_artist db r.artist_name).2 r.album_title with
  | some alid => exact hgg
  | none =>
      apply idsOk_albums_tracks
      · obtain ⟨h1, h2, h3⟩ := idsOk_components hgg
        apply idsOk_intro
        · exact h1
        · exact h2
        · intro al hal
          rcases List.mem_append.mp hal with hal | hal
          · exact h3 al hal
          · simp only [List.mem_singleton] at hal
            subst hal
            exact haid
      · exact haid

theorem idsOk_load_albums (rs : List AlbumRecord) : ∀ db : DB,
    db.idsOk = true → (load_albums db rs).1.idsOk = true := by
  induction rs with
  | nil => intro db h; exact h
  | cons r rs ih => intro db h; exact ih _ (idsOk_albums_step h r)

theorem load_single_songs_append (l1 l2 : List SingleRecord) : ∀ db : DB,
    (load_single_songs db (l1 ++ l2)).1 =
      (load_single_songs (load_single_songs db l1).1 l2).1 ∧
    (load_single_songs db (l1 ++ l2)).2 =
      (load_single_songs db l1).2 ++
        (load_single_songs (load_single_songs db l1).1 l2).2 := by
  induction l1 with
  | nil => intro db; exact ⟨rfl, rfl⟩
  | cons r rs ih =>
      intro db
      refine ⟨(ih (load_single_songs_step db r).1).1, ?_⟩
      show (load_single_songs_step db r).2.toList ++
          (load_single_songs (load_single_songs_step db r).1 (rs ++ l2)).2 = _
      rw [(ih (load_single_songs_step db r).1).2]
      rw [← List.append_assoc]
      rfl

theorem load_albums_append (l1 l2 : List AlbumRecord) : ∀ db : DB,
    (load_albums db (l1 ++ l2)).1 =
      (load_albums (load_albums db l1).1 l2).1 ∧
    (load_albums db (l1 ++ l2)).2 =
      (load_albums db l1).2 ++ (load_albums (load_albums db l1).1 l2).2 := by
  induction l1 with
  | nil => intro db; exact ⟨rfl, rfl⟩
  | cons r rs ih =>
      intro db
      refine ⟨(ih (load_albums_step db r).1).1, ?_⟩
      show (load_albums_step db r).2.toList ++
          (load_albums (load_albums_step db r).1 (rs ++ l2)).2 = _
      rw [(ih (load_albums_step db r).1).2]
      rw [← List.append_assoc]
      rfl

theorem load_song_ratings_append (l1 l2 : List RatingRecord) : ∀ db : DB,
    (load_song_ratings db (l1 ++ l2)).1 =
      (load_song_ratings (load_song_ratings db l1).1 l2).1 ∧
    (load_song_ratings db (l1 ++ l2)).2 =
      (load_song_ratings db l1).2 ++
        (load_song_ratings (load_song_ratings db l1).1 l2).2 := by
  induction l1 with
  | nil => intro db; exact ⟨rfl, rfl⟩
  | cons r rs ih =>
      intro db
      refine ⟨(ih (load_song_ratings_step db r).1).1, ?_⟩
      show (load_song_ratings_step db r).2.toList ++
          (load_song_ratings (load_song_ratings_step db r).1 (rs ++ l2)).2 = _
      rw [(ih (load_song_ratings_step db r).1).2]
      rw [← List.append_assoc]
      rfl

/-- A key is in the rejection output of `load_single_songs` exactly when some
record of the batch was rejected with that key at its processing point. -/
theorem load_single_songs_rejected_mem (batch : List SingleRecord) :
    ∀ (db : DB) (k : String × String),
    (k ∈ (load_single_songs db batch).2 ↔
      ∃ pre r post, batch = pre ++ r :: post ∧
        (load_single_songs_step (load_single_songs db pre).1 r).2 = some k) := by
  induction batch with
  | nil =>
      intro db k
      constructor
      · intro h; exact absurd h (by simp [load_single_songs])
      · rintro ⟨pre, r, post, h, _⟩
        exact absurd h (by cases pre <;> simp)
  | cons r0 rs ih =>
      intro db k
      constructor
      · intro h
        rcases List.mem_append.mp h with h1 | h2
        · refine ⟨[], r0, rs, rfl, ?_⟩
          cases ho : (load_single_songs_step db r0).2 with
          | none => rw [ho] at h1; exact absurd h1 (by simp)
          | some k2 =>
              rw [ho] at h1
              simp only [Option.toList_some, List.mem_singleton] at h1
              subst h1
              exact ho
        · rcases (ih (load_single_songs_step db r0).1 k).mp h2 with
            ⟨pre, r, post, hsplit, hstep⟩
          refine ⟨r0 :: pre, r, post, by rw [List.cons_append, hsplit], hstep⟩
      · rintro ⟨pre, r, post, hsplit, hstep⟩
        cases pre with
        | nil =>
            simp only [List.nil_append, List.cons.injEq] at hsplit
            obtain ⟨rfl, rfl⟩ := hsplit
            have hstep2 : (load_single_songs_step db r0).2 = some k := hstep
            apply List.mem_append.mpr
            left
            rw [hstep2]
            simp
        | cons p0 pre2 =>
            simp only [List.cons_append, List.cons.injEq] at hsplit
            obtain ⟨rfl, hsplit2⟩ := hsplit
            apply List.mem_append.mpr
            right
            exact (ih (load_single_songs_step db r0).1 k).mpr
              ⟨pre2, r, post, hsplit2, hstep⟩

/-- A key is in the rejection output of `load_albums` exactly when some
record of the batch was rejected with that key at its processing point. -/
theorem load_albums_rejected_mem (batch : List AlbumRecord) :
    ∀ (db : DB) (k : String × String),
    (k ∈ (load_albums db batch).2 ↔
      ∃ pre r post, batch = pre ++ r :: post ∧
        (load_albums_step (load_albums db pre).1 r).2 = some k) := by
  induction batch with
  | nil =>
      intro db k
      constructor
      · intro h; exact absurd h (by simp [load_albums])
      · rintro ⟨pre, r, post, h, _⟩
        exact absurd h (by cases pre <;> simp)
  | cons r0 rs ih =>
      intro db k
      constructor
      · intro h
        rcases List.mem_append.mp h with h1 | h2
        · refine ⟨[], r0, rs, rfl, ?_⟩
          cases ho : (load_albums_step db r0).2 with
          | none => rw [ho] at h1; exact absurd h1 (by simp)
          | some k2 =>
              rw [ho] at h1
              simp only [Option.toList_some, List.mem_singleton] at h1
              subst h1
              exact ho
        · rcases (ih (load_albums_step db r0).1 k).mp h2 with
            ⟨pre, r, post, hsplit, hstep⟩
          refine ⟨r0 :: pre, r, post, by rw [List.cons_append, hsplit], hstep⟩
      · rintro ⟨pre, r, post, hsplit, hstep⟩
        cases pre with
        | nil =>
            simp only [List.nil_append, List.cons.injEq] at hsplit
            obtain ⟨rfl, rfl⟩ := hsplit
            have hstep2 : (load_albums_step db r0).2 = some k := hstep
            apply List.mem_append.mpr
            left
            rw [hstep2]
            simp
        | cons p0 pre2 =>
            simp only [List.cons_append, List.cons.injEq] at hsplit
            obtain ⟨rfl, hsplit2⟩ := hsplit
            apply List.mem_append.mpr
            right
            exact (ih (load_albums_step db r0).1 k).mpr
              ⟨pre2, r, post, hsplit2, hstep⟩

/-- A key is in the rejection output of `load_song_ratings` exactly when some
record of the batch was rejected with that key at its processing point. -/
theorem load_song_ratings_rejected_mem (batch : List RatingRecord) :
    ∀ (db : DB) (k : String × String × String),
    (k ∈ (load_song_ratings db batch).2 ↔
      ∃ pre r post, batch = pre ++ r :: post ∧
        (load_song_ratings_step (load_song_ratings db pre).1 r).2 = some k) := by
  induction batch with
  | nil =>
      intro db k
      constructor
      · intro h; exact absurd h (by simp [load_song_ratings])
      · rintro ⟨pre, r, post, h, _⟩
        exact absurd h (by cases pre <;> simp)
  | cons r0 rs ih =>
      intro db k
      constructor
      · intro h
        rcases List.mem_append.mp h with h1 | h2
        · refine ⟨[], r0, rs, rfl, ?_⟩
          cases ho : (load_song_ratings_step db r0).2 with
          | none => rw [ho] at h1; exact absurd h1 (by simp)
          | some k2 =>
              rw [ho] at h1
              simp only [Option.toList_some, List.mem_singleton] at h1
              subst h1
              exact ho
        · rcases (ih (load_song_ratings_step db r0).1 k).mp h2 with
            ⟨pre, r, post, hsplit, hstep⟩
          refine ⟨r0 :: pre, r, post, by rw [List.cons_append, hsplit], hstep⟩
      · rintro ⟨pre, r, post, hsplit, hstep⟩
        cases pre with
        | nil =>
            simp only [List.nil_append, List.cons.injEq] at hsplit
            obtain ⟨rfl, rfl⟩ := hsplit
            have hstep2 : (load_song_ratings_step db r0).2 = some k := hstep
            apply List.mem_append.mpr
            left
            rw [hstep2]
            simp
        | cons p0 pre2 =>
            simp only [List.cons_append, List.cons.injEq] at hsplit
            obtain ⟨rfl, hsplit2⟩ := hsplit
            apply List.mem_append.mpr
            right
            exact (ih (load_song_ratings_step db r0).1 k).mpr
              ⟨pre2, r, post, hsplit2, hstep⟩

/-- Per-record rejection condition of `load_single_songs`: in a store with
consistent auto-increment ids, a record is rejected exactly when its genre
set is empty or the named artist already has a song with that title. -/
theorem load_single_songs_step_rejected_iff {db : DB} (h : db.idsOk = true)
    (r : SingleRecord) :
    ((load_single_songs_step db r).2 = some (r.title, r.artist_name) ↔
      (r.genres = [] ∨ song_exists_by_names db r.artist_name r.title = true)) := by
  by_cases hg : r.genres.isEmpty
  · have hg2 : r.genres = [] := by
      cases hge : r.genres with
      | nil => rfl
      | cons x xs => rw [hge] at hg; exact absurd hg (by simp)
    constructor
    · intro _; exact Or.inl hg2
    · intro _
      simp [load_single_songs_step, hg]
  · have hg2 : ¬ r.genres = [] := by
      intro hh
      rw [hh] at hg
      exact hg rfl
    cases hgc : db.artists.find? (fun a => a.name == r.artist_name) with
    | some a =>
        have hexists : song_exists_by_names db r.artist_name r.title =
            (get_song_id_by_artist_and_title db a.artist_id r.title).isSome := by
          unfold song_exists_by_names get_artist_id
          rw [hgc]
          rfl
        cases hs : get_song_id_by_artist_and_title db a.artist_id r.title with
        | some sid =>
            constructor
            · intro _
              right
              rw [hexists, hs]
              rfl
            · intro _
              simp [load_single_songs_step, hg, get_or_create_artist, hgc, hs]
        | none =>
            constructor
            · intro hstep
              exfalso
              rw [show (load_single_songs_step db r).2 = none from by
                  simp [load_single_songs_step, hg, get_or_create_artist, hgc, hs]] at hstep
              exact Option.noConfusion hstep
            · rintro (hh | hh)
              · exact absurd hh hg2
              · rw [hexists, hs] at hh
                exact Bool.noConfusion hh
    | none =>
        have hnone : get_song_id_by_artist_and_title
            { db with artists := db.artists ++ [⟨db.nextArtistId, r.artist_name⟩]
                      nextArtistId := db.nextArtistId + 1 }
            db.nextArtistId r.title = none := by
          unfold get_song_id_by_artist_and_title
          rw [Option.map_eq_none']
          rw [List.find?_eq_none]
          intro s hs hp
          obtain ⟨_, h2, _⟩ := idsOk_components h
          have hlt := h2 s hs
          simp only [Bool.and_eq_true, beq_iff_eq] at hp
          omega
        constructor
        · intro hstep
          exfalso
          rw [show (load_single_songs_step db r).2 = none from by
              simp [load_single_songs_step, hg, get_or_create_artist, hgc, hnone]] at hstep
          exact Option.noConfusion hstep
        · rintro (hh | hh)
          · exact absurd hh hg2
          · rw [show song_exists_by_names db r.artist_name r.title = false from by
                simp [song_exists_by_names, get_artist_id, hgc]] at hh
            exact Bool.noConfusion hh

/-- The singles loader only appends Song rows, and every appended row is a
single (`album_id` NULL). -/
theorem load_single_songs_songs_append (rs : List SingleRecord) : ∀ db : DB,
    ∃ added, (load_single_songs db rs).1.songs = db.songs ++ added ∧
      ∀ s ∈ added, s.album_id = none := by
  induction rs with
  | nil => intro db; exact ⟨[], by simp [load_single_songs], by simp⟩
  | cons r rs ih =>
      intro db
      rcases ih (load_single_songs_step db r).1 with ⟨added, hadd, hnull⟩
      rcases load_single_songs_step_songs db r with hs | ⟨s, _, hsn, _, hs⟩
      · refine ⟨added, ?_, hnull⟩
        show (load_single_songs (load_single_songs_step db r).1 rs).1.songs = _
        rw [hadd, hs]
      · refine ⟨s :: added, ?_, ?_⟩
        · show (load_single_songs (load_single_songs_step db r).1 rs).1.songs = _
          rw [hadd, hs, List.append_assoc]
          rfl
        · intro x hx
          rcases List.mem_cons.mp hx with rfl | hx
          · exact hsn
          · exact hnull x hx

/-- C1 (amended): for every prior store with consistent auto-increment ids
and every position in the batch, the record there is rejected — its key is
emitted at that step — exactly when its genre set is empty or a song with
that (artist, title) exists in the store state at that moment (the prior
store plus the songs of earlier accepted records, all singles); an
empty-genre rejection leaves the store untouched; an accepted record appends
exactly one Song row with album NULL; and the returned set contains exactly
the keys emitted by rejected records, so an accepted record's key can also
appear when a different record with the same key was rejected. -/
theorem c1_singles_rejection (db : DB) (pre post : List SingleRecord)
    (r : SingleRecord) (k : String × String) (h : db.idsOk = true) :
    ((load_single_songs_step (load_single_songs db pre).1 r).2 =
        some (r.title, r.artist_name) ↔
      (r.genres = [] ∨
        song_exists_by_names (load_single_songs db pre).1 r.artist_name
          r.title = true)) ∧
    (r.genres = [] →
      (load_single_songs_step (load_single_songs db pre).1 r).1 =
        (load_single_songs db pre).1) ∧
    ((load_single_songs_step (load_single_songs db pre).1 r).2 = none →
      ∃ s : SongRow, s.title = r.title ∧ s.album_id = none ∧
        (load_single_songs_step (load_single_songs db pre).1 r).1.songs =
          (load_single_songs db pre).1.songs ++ [s]) ∧
    (∃ added, (load_single_songs db pre).1.songs = db.songs ++ added ∧
      ∀ s ∈ added, s.album_id = none) ∧
    (k ∈ (load_single_songs db (pre ++ r :: post)).2 ↔
      ∃ pre2 r2 post2, pre ++ r :: post = pre2 ++ r2 :: post2 ∧
        (load_single_songs_step (load_single_songs db pre2).1 r2).2 = some k) := by
  have hids : (load_single_songs db pre).1.idsOk = true :=
    idsOk_load_single_songs pre db h
  refine ⟨load_single_songs_step_rejected_iff hids r, ?_, ?_, ?_, ?_⟩
  · intro hg
    have hg2 : r.genres.isEmpty = true := by rw [hg]; rfl
    simp [load_single_songs_step, hg2]
  · intro hacc
    unfold load_single_songs_step at hacc ⊢
    by_cases hg : r.genres.isEmpty
    · rw [if_pos hg] at hacc
      exact absurd hacc (by simp)
    · rw [if_neg hg] at hacc ⊢
      dsimp only at hacc ⊢
      cases hf : get_song_id_by_artist_and_title
          (get_or_create_artist (load_single_songs db pre).1 r.artist_name).1
          (get_or_create_artist (load_single_songs db pre).1 r.artist_name).2
          r.title with
      | some sid =>
          rw [hf] at hacc
          simp at hacc
      | none =>
          dsimp only
          refine ⟨⟨(get_or_create_artist (load_single_songs db pre).1
              r.artist_name).1.nextSongId, r.title,
            (get_or_create_artist (load_single_songs db pre).1 r.artist_name).2,
            none, r.release_date⟩, rfl, rfl, ?_⟩
          rw [insert_single_genres_songs]
          dsimp only
          rw [get_or_create_artist_songs]
  · exact load_single_songs_songs_append pre db
  · exact load_single_songs_rejected_mem (pre ++ r :: post) db k

/-- C1 counterexample: with an empty-genre record and a later record sharing
the same (title, artist) key in one batch, the key is in the returned set
although the later record has a nonempty genre set, no song with that
(artist, title) existed before the batch, nothing was inserted by the first
(rejected) record, and the later record itself is accepted and inserted —
so membership in the returned set is not equivalent to the stated rejection
conditions. -/
theorem c1_counterexample :
    (("T", "A") ∈ (load_single_songs emptyDB
      [⟨"T", [], "A", ⟨2020, 1, 1⟩⟩, ⟨"T", ["Pop"], "A", ⟨2020, 1, 1⟩⟩]).2) ∧
    (⟨"T", ["Pop"], "A", ⟨2020, 1, 1⟩⟩ : SingleRecord).genres ≠ [] ∧
    emptyDB.songs = [] ∧
    (load_single_songs emptyDB [⟨"T", [], "A", ⟨2020, 1, 1⟩⟩]).1 = emptyDB ∧
    ((load_single_songs emptyDB
      [⟨"T", [], "A", ⟨2020, 1, 1⟩⟩, ⟨"T", ["Pop"], "A", ⟨2020, 1, 1⟩⟩]).1.songs.map
        (fun s => s.title)) = ["T"] := by
  decide

/-- C1 witness: the amended theorem applied to the empty store and a
one-record batch whose record is accepted. -/
theorem c1_witness :
    emptyDB.idsOk = true ∧
    (((load_single_songs_step (load_single_songs emptyDB []).1
        ⟨"T", ["Pop"], "A", ⟨2020, 1, 1⟩⟩).2 = some ("T", "A") ↔
      ((⟨"T", ["Pop"], "A", ⟨2020, 1, 1⟩⟩ : SingleRecord).genres = [] ∨
        song_exists_by_names (load_single_songs emptyDB []).1 "A" "T" = true)) ∧
    ((⟨"T", ["Pop"], "A", ⟨2020, 1, 1⟩⟩ : SingleRecord).genres = [] →
      (load_single_songs_step (load_single_songs emptyDB []).1
        ⟨"T", ["Pop"], "A", ⟨2020, 1, 1⟩⟩).1 = (load_single_songs emptyDB []).1) ∧
    ((load_single_songs_step (load_single_songs emptyDB []).1
        ⟨"T", ["Pop"], "A", ⟨2020, 1, 1⟩⟩).2 = none →
      ∃ s : SongRow, s.title = "T" ∧ s.album_id = none ∧
        (load_single_songs_step (load_single_songs emptyDB []).1
          ⟨"T", ["Pop"], "A", ⟨2020, 1, 1⟩⟩).1.songs =
        (load_single_songs emptyDB []).1.songs ++ [s]) ∧
    (∃ added, (load_single_songs emptyDB []).1.songs = emptyDB.songs ++ added ∧
      ∀ s ∈ added, s.album_id = none) ∧
    ((("T", "A") ∈ (load_single_songs emptyDB
        ([] ++ ⟨"T", ["Pop"], "A", ⟨2020, 1, 1⟩⟩ :: [])).2) ↔
      ∃ pre2 r2 post2,
        [] ++ (⟨"T", ["Pop"], "A", ⟨2020, 1, 1⟩⟩ : SingleRecord) :: [] =
          pre2 ++ r2 :: post2 ∧
        (load_single_songs_step (load_single_songs emptyDB pre2).1 r2).2 =
          some ("T", "A"))) :=
  ⟨by decide, c1_singles_rejection emptyDB [] []
    ⟨"T", ["Pop"], "A", ⟨2020, 1, 1⟩⟩ ("T", "A") (by decide)⟩

/-- Per-record rejection condition of `load_song_ratings`: a record is
rejected exactly when one of the five documented conditions holds. -/
theorem load_song_ratings_step_rejected_iff (db : DB) (r : RatingRecord) :
    ((load_song_ratings_step db r).2 = some (ratingKey r) ↔
      (rating_cond_a db r = true ∨ rating_cond_b db r = true ∨
       rating_cond_c db r = true ∨ rating_cond_d r = true ∨
       rating_cond_e db r = true)) := by
  cases hu : get_user_id db r.username with
  | none =>
      constructor
      · intro _
        exact Or.inl (by simp [rating_cond_a, hu])
      · intro _
        simp [load_song_ratings_step, hu]
  | some uid =>
      have hca : rating_cond_a db r = false := by simp [rating_cond_a, hu]
      cases ha : get_artist_id db r.artist_name with
      | none =>
          constructor
          · intro _
            exact Or.inr (Or.inl (by simp [rating_cond_b, ha]))
          · intro _
            simp [load_song_ratings_step, hu, ha]
      | some aid =>
          have hcb : rating_cond_b db r = false := by simp [rating_cond_b, ha]
          have hres : resolve_song db r.artist_name r.song_title =
              get_song_id_by_artist_and_title db aid r.song_title := by
            unfold resolve_song
            rw [ha]
          cases hs : get_song_id_by_artist_and_title db aid r.song_title with
          | none =>
              constructor
              · intro _
                exact Or.inr (Or.inr (Or.inl (by simp [rating_cond_c, hres, hs])))
              · intro _
                simp [load_song_ratings_step, hu, ha, hs]
          | some sid =>
              have hcc : rating_cond_c db r = false := by
                simp [rating_cond_c, hres, hs]
              by_cases hr : 1 ≤ r.rating ∧ r.rating ≤ 5
              · have hcd : rating_cond_d r = false := by
                  simp [rating_cond_d, hr.1, hr.2]
                by_cases hd : db.ratings.any
                    (fun rt => rt.user_id == uid && rt.song_id == sid) = true
                · constructor
                  · intro _
                    refine Or.inr (Or.inr (Or.inr (Or.inr ?_)))
                    simp [rating_cond_e, hu, hres, hs, hd]
                  · intro _
                    simp [load_song_ratings_step, hu, ha, hs, hr, hd]
                · constructor
                  · intro hstep
                    exfalso
                    rw [show (load_song_ratings_step db r).2 = none from by
                        simp [load_song_ratings_step, hu, ha, hs, hr, hd]] at hstep
                    exact Option.noConfusion hstep
                  · rintro (hh | hh | hh | hh | hh)
                    · rw [hca] at hh; exact Bool.noConfusion hh
                    · rw [hcb] at hh; exact Bool.noConfusion hh
                    · rw [hcc] at hh; exact Bool.noConfusion hh
                    · rw [hcd] at hh; exact Bool.noConfusion hh
                    · rw [show rating_cond_e db r = false from by
                          simp [rating_cond_e, hu, hres, hs, hd]] at hh
                      exact Bool.noConfusion hh
              · constructor
                · intro _
                  refine Or.inr (Or.inr (Or.inr (Or.inl ?_)))
                  simp [rating_cond_d, hr]
                · intro _
                  simp [load_song_ratings_step, hu, ha, hs, hr]

/-- The check order of `load_song_ratings` is observable through the first
failing check: an unresolvable song wins over every later check, whatever
the rating value is. -/
theorem load_song_ratings_reason_song_missing (db : DB) (r : RatingRecord)
    (hasUser : rating_cond_a db r = false)
    (hasArtist : rating_cond_b db r = false)
    (noSong : rating_cond_c db r = true) :
    load_song_ratings_reason db r = some RatingReject.songMissing := by
  unfold rating_cond_a at hasUser
  unfold rating_cond_b at hasArtist
  unfold rating_cond_c at noSong
  cases h1 : get_user_id db r.username with
  | none => rw [h1] at hasUser; simp at hasUser
  | some uid =>
      cases h2 : get_artist_id db r.artist_name with
      | none => rw [h2] at hasArtist; simp at hasArtist
      | some aid =>
          have hres : resolve_song db r.artist_name r.song_title =
              get_song_id_by_artist_and_title db aid r.song_title := by
            unfold resolve_song
            rw [h2]
          rw [hres] at noSong
          cases h3 : get_song_id_by_artist_and_title db aid r.song_title with
          | some sid => rw [h3] at noSong; simp at noSong
          | none => simp [load_song_ratings_reason, h1, h2, h3]

/-- The rejection decision of the rating loader agrees with the first-failing
check: a record is accepted exactly when no check fails. -/
theorem load_song_ratings_step_none_iff_reason_none (db : DB) (r : RatingRecord) :
    ((load_song_ratings_step db r).2 = none ↔
      load_song_ratings_reason db r = none) := by
  cases hu : get_user_id db r.username with
  | none => simp [load_song_ratings_step, load_song_ratings_reason, hu]
  | some uid =>
      cases ha : get_artist_id db r.artist_name with
      | none => simp [load_song_ratings_step, load_song_ratings_reason, hu, ha]
      | some aid =>
          cases hs : get_song_id_by_artist_and_title db aid r.song_title with
          | none =>
              simp [load_song_ratings_step, load_song_ratings_reason, hu, ha, hs]
          | some sid =>
              by_cases hr : 1 ≤ r.rating ∧ r.rating ≤ 5
              · by_cases hd : db.ratings.any
                    (fun rt => rt.user_id == uid && rt.song_id == sid) = true
                · simp [load_song_ratings_step, load_song_ratings_reason,
                    hu, ha, hs, hr, hd]
                · simp [load_song_ratings_step, load_song_ratings_reason,
                    hu, ha, hs, hr, hd]
              · simp [load_song_ratings_step, load_song_ratings_reason,
                  hu, ha, hs, hr]

/-- C3 (amended): at every position of a ratings batch, the record there is
rejected — its key emitted at that step — exactly when one of the conditions
(a)-(e) holds in the store state at that moment; the checks run in source
order and short-circuit, so an unresolvable song is reported as the song
check whatever the rating value is; a record failing no check has exactly
its Rating row inserted; and the returned set contains exactly the keys
emitted by rejected records, so an accepted record's key can also appear
when a different record with the same key (e.g. an out-of-range earlier
attempt) was rejected. -/
theorem c3_rating_gating (db : DB) (pre post : List RatingRecord)
    (r : RatingRecord) (k : String × String × String) :
    (((load_song_ratings_step (load_song_ratings db pre).1 r).2 =
        some (ratingKey r)) ↔
      (rating_cond_a (load_song_ratings db pre).1 r = true ∨
       rating_cond_b (load_song_ratings db pre).1 r = true ∨
       rating_cond_c (load_song_ratings db pre).1 r = true ∨
       rating_cond_d r = true ∨
       rating_cond_e (load_song_ratings db pre).1 r = true)) ∧
    ((rating_cond_a (load_song_ratings db pre).1 r = false →
      rating_cond_b (load_song_ratings db pre).1 r = false →
      rating_cond_c (load_song_ratings db pre).1 r = true →
      load_song_ratings_reason (load_song_ratings db pre).1 r =
        some RatingReject.songMissing)) ∧
    ((load_song_ratings_step (load_song_ratings db pre).1 r).2 = none ↔
      load_song_ratings_reason (load_song_ratings db pre).1 r = none) ∧
    ((load_song_ratings_step (load_song_ratings db pre).1 r).2 = none →
      ∃ uid sid,
        get_user_id (load_song_ratings db pre).1 r.username = some uid ∧
        resolve_song (load_song_ratings db pre).1 r.artist_name
          r.song_title = some sid ∧
        (load_song_ratings_step (load_song_ratings db pre).1 r).1 =
          { (load_song_ratings db pre).1 with
            ratings := (load_song_ratings db pre).1.ratings ++
              [⟨uid, sid, r.rating, r.rating_date⟩] }) ∧
    (k ∈ (load_song_ratings db (pre ++ r :: post)).2 ↔
      ∃ pre2 r2 post2, pre ++ r :: post = pre2 ++ r2 :: post2 ∧
        (load_song_ratings_step (load_song_ratings db pre2).1 r2).2 = some k) :=
  ⟨load_song_ratings_step_rejected_iff (load_song_ratings db pre).1 r,
   load_song_ratings_reason_song_missing (load_song_ratings db pre).1 r,
   load_song_ratings_step_none_iff_reason_none (load_song_ratings db pre).1 r,
   (load_song_ratings_step_frame (load_song_ratings db pre).1 r).2,
   load_song_ratings_rejected_mem (pre ++ r :: post) db k⟩

/-- C3 counterexample: an out-of-range rating for ("u1", "A", "S") is
rejected and puts that key into the returned set, after which a valid rating
with the same key is accepted and inserted; at the moment the second record
was processed the store was unchanged and none of the conditions (a)-(e)
held for it, yet its key is in the returned set — so set membership is not
equivalent to the disjunction of (a)-(e) for each record. -/
theorem c3_counterexample :
    (("u1", "A", "S") ∈ (load_song_ratings oneSongDB
      [⟨"u1", "A", "S", 9, ⟨2020, 2, 2⟩⟩, ⟨"u1", "A", "S", 5, ⟨2020, 3, 3⟩⟩]).2) ∧
    (load_song_ratings oneSongDB [⟨"u1", "A", "S", 9, ⟨2020, 2, 2⟩⟩]).1 =
      oneSongDB ∧
    rating_cond_a oneSongDB ⟨"u1", "A", "S", 5, ⟨2020, 3, 3⟩⟩ = false ∧
    rating_cond_b oneSongDB ⟨"u1", "A", "S", 5, ⟨2020, 3, 3⟩⟩ = false ∧
    rating_cond_c oneSongDB ⟨"u1", "A", "S", 5, ⟨2020, 3, 3⟩⟩ = false ∧
    rating_cond_d ⟨"u1", "A", "S", 5, ⟨2020, 3, 3⟩⟩ = false ∧
    rating_cond_e oneSongDB ⟨"u1", "A", "S", 5, ⟨2020, 3, 3⟩⟩ = false ∧
    ((load_song_ratings oneSongDB
      [⟨"u1", "A", "S", 9, ⟨2020, 2, 2⟩⟩,
       ⟨"u1", "A", "S", 5, ⟨2020, 3, 3⟩⟩]).1.ratings.map
        (fun rt => rt.rating)) = [5] := by
  decide

/-- C3 witness: the amended theorem applied to the concrete one-song store
and a one-record batch. -/
theorem c3_witness :
    (((load_song_ratings_step (load_song_ratings oneSongDB []).1
        ⟨"u1", "A", "S", 5, ⟨2020, 3, 3⟩⟩).2 =
        some (ratingKey ⟨"u1", "A", "S", 5, ⟨2020, 3, 3⟩⟩)) ↔
      (rating_cond_a (load_song_ratings oneSongDB []).1
          ⟨"u1", "A", "S", 5, ⟨2020, 3, 3⟩⟩ = true ∨
       rating_cond_b (load_song_ratings oneSongDB []).1
          ⟨"u1", "A", "S", 5, ⟨2020, 3, 3⟩⟩ = true ∨
       rating_cond_c (load_song_ratings oneSongDB []).1
          ⟨"u1", "A", "S", 5, ⟨2020, 3, 3⟩⟩ = true ∨
       rating_cond_d ⟨"u1", "A", "S", 5, ⟨2020, 3, 3⟩⟩ = true ∨
       rating_cond_e (load_song_ratings oneSongDB []).1
          ⟨"u1", "A", "S", 5, ⟨2020, 3, 3⟩⟩ = true)) ∧
    ((rating_cond_a (load_song_ratings oneSongDB []).1
        ⟨"u1", "A", "S", 5, ⟨2020, 3, 3⟩⟩ = false →
      rating_cond_b (load_song_ratings oneSongDB []).1
        ⟨"u1", "A", "S", 5, ⟨2020, 3, 3⟩⟩ = false →
      rating_cond_c (load_song_ratings oneSongDB []).1
        ⟨"u1", "A", "S", 5, ⟨2020, 3, 3⟩⟩ = true →
      load_song_ratings_reason (load_song_ratings oneSongDB []).1
        ⟨"u1", "A", "S", 5, ⟨2020, 3, 3⟩⟩ = some RatingReject.songMissing)) ∧
    ((load_song_ratings_step (load_song_ratings oneSongDB []).1
        ⟨"u1", "A", "S", 5, ⟨2020, 3, 3⟩⟩).2 = none ↔
      load_song_ratings_reason (load_song_ratings oneSongDB []).1
        ⟨"u1", "A", "S", 5, ⟨2020, 3, 3⟩⟩ = none) ∧
    ((load_song_ratings_step (load_song_ratings oneSongDB []).1
        ⟨"u1", "A", "S", 5, ⟨2020, 3, 3⟩⟩).2 = none →
      ∃ uid sid,
        get_user_id (load_song_ratings oneSongDB []).1 "u1" = some uid ∧
        resolve_song (load_song_ratings oneSongDB []).1 "A" "S" = some sid ∧
        (load_song_ratings_step (load_song_ratings oneSongDB []).1
          ⟨"u1", "A", "S", 5, ⟨2020, 3, 3⟩⟩).1 =
          { (load_song_ratings oneSongDB []).1 with
            ratings := (load_song_ratings oneSongDB []).1.ratings ++
              [⟨uid, sid, 5, ⟨2020, 3, 3⟩⟩] }) ∧
    ((("u1", "A", "S") ∈ (load_song_ratings oneSongDB
        ([] ++ ⟨"u1", "A", "S", 5, ⟨2020, 3, 3⟩⟩ :: [])).2) ↔
      ∃ pre2 r2 post2,
        [] ++ (⟨"u1", "A", "S", 5, ⟨2020, 3, 3⟩⟩ : RatingRecord) :: [] =
          pre2 ++ r2 :: post2 ∧
        (load_song_ratings_step (load_song_ratings oneSongDB pre2).1 r2).2 =
          some ("u1", "A", "S")) :=
  c3_rating_gating oneSongDB [] [] ⟨"u1", "A", "S", 5, ⟨2020, 3, 3⟩⟩
    ("u1", "A", "S")

/-- C10: a rejected rating record leaves the store exactly as it was — the
loader performs only lookups before deciding, so no Artist, User, Song or
Rating row is created — and removing a rejected record from the batch does
not change the final store, which therefore depends only on the accepted
records; an accepted record appends exactly its Rating row. -/
theorem c10_rating_frame (db : DB) (pre post : List RatingRecord)
    (r : RatingRecord) :
    ((load_song_ratings_step (load_song_ratings db pre).1 r).2.isSome = true →
      (load_song_ratings_step (load_song_ratings db pre).1 r).1 =
        (load_song_ratings db pre).1 ∧
      (load_song_ratings db (pre ++ r :: post)).1 =
        (load_song_ratings db (pre ++ post)).1) ∧
    ((load_song_ratings_step (load_song_ratings db pre).1 r).2 = none →
      ∃ uid sid,
        get_user_id (load_song_ratings db pre).1 r.username = some uid ∧
        resolve_song (load_song_ratings db pre).1 r.artist_name
          r.song_title = some sid ∧
        (load_song_ratings_step (load_song_ratings db pre).1 r).1 =
          { (load_song_ratings db pre).1 with
            ratings := (load_song_ratings db pre).1.ratings ++
              [⟨uid, sid, r.rating, r.rating_date⟩] }) := by
  constructor
  · intro hrej
    have h1 := (load_song_ratings_step_frame (load_song_ratings db pre).1 r).1 hrej
    refine ⟨h1, ?_⟩
    rw [(load_song_ratings_append pre (r :: post) db).1,
      (load_song_ratings_append pre post db).1]
    show (load_song_ratings (load_song_ratings_step
      (load_song_ratings db pre).1 r).1 post).1 = _
    rw [h1]
  · exact (load_song_ratings_step_frame (load_song_ratings db pre).1 r).2

/-- C10 witness: the frame theorem applied to a rejected (out-of-range)
record on the concrete one-song store. -/
theorem c10_witness :
    ((load_song_ratings_step (load_song_ratings oneSongDB []).1
        ⟨"u1", "A", "S", 9, ⟨2020, 2, 2⟩⟩).2.isSome = true) ∧
    ((load_song_ratings_step (load_song_ratings oneSongDB []).1
        ⟨"u1", "A", "S", 9, ⟨2020, 2, 2⟩⟩).1 = (load_song_ratings oneSongDB []).1 ∧
      (load_song_ratings oneSongDB
          ([] ++ ⟨"u1", "A", "S", 9, ⟨2020, 2, 2⟩⟩ :: [])).1 =
        (load_song_ratings oneSongDB ([] ++ [])).1) :=
  ⟨by decide,
    (c10_rating_frame oneSongDB [] [] ⟨"u1", "A", "S", 9, ⟨2020, 2, 2⟩⟩).1
      (by decide)⟩

theorem find?_append_of_none {p : α → Bool} {l1 l2 : List α}
    (h : l1.find? p = none) : (l1 ++ l2).find? p = l2.find? p := by
  induction l1 with
  | nil => rfl
  | cons a t ih =>
      by_cases hp : p a = true
      · rw [List.find?_cons_of_pos _ hp] at h
        exact absurd h (by simp)
      · rw [List.find?_cons_of_neg _ hp] at h
        rw [List.cons_append, List.find?_cons_of_neg _ hp]
        exact ih h

theorem get_artist_id_eq_of_artists_eq {db1 db2 : DB}
    (h : db1.artists = db2.artists) (n : String) :
    get_artist_id db1 n = get_artist_id db2 n := by
  unfold get_artist_id; rw [h]

theorem get_album_id_eq_of_albums_eq {db1 db2 : DB}
    (h : db1.albums = db2.albums) (aid : Nat) (t : String) :
    get_album_id db1 aid t = get_album_id db2 aid t := by
  unfold get_album_id; rw [h]

theorem get_genre_id_eq_of_genres_eq {db1 db2 : DB}
    (h : db1.genres = db2.genres) (n : String) :
    get_genre_id db1 n = get_genre_id db2 n := by
  unfold get_genre_id; rw [h]

theorem gcArtist_lookup (db : DB) (n : String) :
    get_artist_id (get_or_create_artist db n).1 n =
      some (get_or_create_artist db n).2 := by
  cases hf : db.artists.find? (fun a => a.name == n) with
  | some a => simp [get_or_create_artist, get_artist_id, hf]
  | none =>
      simp [get_or_create_artist, get_artist_id, hf, find?_append_of_none hf]

theorem gcGenre_lookup (db : DB) (n : String) :
    get_genre_id (get_or_create_genre db n).1 n =
      some (get_or_create_genre db n).2 := by
  cases hf : db.genres.find? (fun g => g.name == n) with
  | some g => simp [get_or_create_genre, get_genre_id, hf]
  | none =>
      simp [get_or_create_genre, get_genre_id, hf, find?_append_of_none hf]

/-- The track loop never touches the Artist, Album, Genre, User or Rating
tables. -/
theorem load_albums_tracks_frame (aid alid gid : Nat) (d : Date)
    (ts : List String) : ∀ db : DB,
    (load_albums_tracks aid alid gid d db ts).artists = db.artists ∧
    (load_albums_tracks aid alid gid d db ts).albums = db.albums ∧
    (load_albums_tracks aid alid gid d db ts).genres = db.genres ∧
    (load_albums_tracks aid alid gid d db ts).users = db.users ∧
    (load_albums_tracks aid alid gid d db ts).ratings = db.ratings := by
  induction ts with
  | nil => intro db; exact ⟨rfl, rfl, rfl, rfl, rfl⟩
  | cons t ts ih =>
      intro db
      obtain ⟨h1, h2, h3, h4, h5⟩ := ih (load_albums_track aid alid gid d db t)
      have htr : (load_albums_track aid alid gid d db t).artists = db.artists ∧
          (load_albums_track aid alid gid d db t).albums = db.albums ∧
          (load_albums_track aid alid gid d db t).genres = db.genres ∧
          (load_albums_track aid alid gid d db t).users = db.users ∧
          (load_albums_track aid alid gid d db t).ratings = db.ratings := by
        rcases load_albums_track_cases aid alid gid d db t with ⟨_, heq⟩ | ⟨_, heq⟩ <;>
          rw [heq] <;> exact ⟨rfl, rfl, rfl, rfl, rfl⟩
      exact ⟨h1.trans htr.1, h2.trans htr.2.1, h3.trans htr.2.2.1,
        h4.trans htr.2.2.2.1, h5.trans htr.2.2.2.2⟩

/-- Per-record rejection condition of `load_albums`: in a store with
consistent auto-increment ids, a record is rejected exactly when the named
artist already has an album with that title. -/
theorem load_albums_step_rejected_iff {db : DB} (h : db.idsOk = true)
    (r : AlbumRecord) :
    ((load_albums_step db r).2 = some (r.album_title, r.artist_name) ↔
      album_exists_by_names db r.artist_name r.album_title = true) := by
  have halb : (get_or_create_genre (get_or_create_artist db r.artist_name).1
      r.album_genre).1.albums = db.albums := by
    rw [(gcGenre_frame _ _).2.1, (gcArtist_frame _ _).2.1]
  cases hal : get_album_id (get_or_create_genre (get_or_create_artist db
      r.artist_name).1 r.album_genre).1
      (get_or_create_artist db r.artist_name).2 r.album_title with
  | some alid =>
      rw [show (load_albums_step db r).2 = some (r.album_title, r.artist_name)
        from by simp [load_albums_step, hal]]
      constructor
      · intro _
        rw [get_album_id_eq_of_albums_eq halb] at hal
        cases hgc : db.artists.find? (fun a => a.name == r.artist_name) with
        | some a =>
            rw [show (get_or_create_artist db r.artist_name).2 = a.artist_id
              from by simp [get_or_create_artist, hgc]] at hal
            simp [album_exists_by_names, get_artist_id, hgc, hal]
        | none =>
            exfalso
            rw [show (get_or_create_artist db r.artist_name).2 = db.nextArtistId
              from by simp [get_or_create_artist, hgc]] at hal
            unfold get_album_id at hal
            cases hf : db.albums.find? (fun al =>
                al.artist_id == db.nextArtistId && al.title == r.album_title) with
            | none => rw [hf] at hal; simp at hal
            | some al =>
                obtain ⟨_, _, h3⟩ := idsOk_components h
                have hlt := h3 al (List.mem_of_find?_eq_some hf)
                have hp := List.find?_some hf
                simp only [Bool.and_eq_true, beq_iff_eq] at hp
                omega
      · intro _; rfl
  | none =>
      rw [show (load_albums_step db r).2 = none from by
        simp [load_albums_step, hal]]
      constructor
      · intro hh; exact Option.noConfusion hh
      · intro hex
        rw [get_album_id_eq_of_albums_eq halb] at hal
        cases hgc : db.artists.find? (fun a => a.name == r.artist_name) with
        | none =>
            rw [show album_exists_by_names db r.artist_name r.album_title =
                false from by simp [album_exists_by_names, get_artist_id, hgc]]
              at hex
            exact Bool.noConfusion hex
        | some a =>
            rw [show (get_or_create_artist db r.artist_name).2 = a.artist_id
              from by simp [get_or_create_artist, hgc]] at hal
            rw [show album_exists_by_names db r.artist_name r.album_title =
                false from by
                simp [album_exists_by_names, get_artist_id, hgc, hal]] at hex
            exact Bool.noConfusion hex

/-- A rejected (duplicate) album record inserts none of its tracks: the Song
table is exactly what it was. -/
theorem load_albums_step_dup_songs {db : DB} (r : AlbumRecord)
    (hrej : (load_albums_step db r).2.isSome = true) :
    (load_albums_step db r).1.songs = db.songs := by
  cases hal : get_album_id (get_or_create_genre (get_or_create_artist db
      r.artist_name).1 r.album_genre).1
      (get_or_create_artist db r.artist_name).2 r.album_title with
  | some alid =>
      rw [show (load_albums_step db r).1 =
          (get_or_create_genre (get_or_create_artist db r.artist_name).1
            r.album_genre).1 from by simp [load_albums_step, hal]]
      rw [get_or_create_genre_songs, get_or_create_artist_songs]
  | none =>
      rw [show (load_albums_step db r).2 = none from by
        simp [load_albums_step, hal]] at hrej
      exact Bool.noConfusion hrej

/-- After inserting a new album, the (artist, album title) pair resolves in
the resulting store, whatever the track loop then does. -/
theorem album_exists_after_insert (dbq : DB) (aid alid gid : Nat) (d : Date)
    (name title : String) (ts : List String)
    (hlook : get_artist_id dbq name = some aid)
    (hnone : dbq.albums.find?
      (fun al => al.artist_id == aid && al.title == title) = none) :
    album_exists_by_names
      (load_albums_tracks aid alid gid d
        { dbq with albums := dbq.albums ++ [⟨alid, title, aid, d, gid⟩]
                   nextAlbumId := dbq.nextAlbumId + 1 } ts)
      name title = true := by
  unfold album_exists_by_names
  rw [get_artist_id_eq_of_artists_eq (load_albums_tracks_frame aid alid gid d ts _).1]
  rw [show get_artist_id
      { dbq with
        albums := dbq.albums ++ [⟨alid, title, aid, d, gid⟩],
        nextAlbumId := dbq.nextAlbumId + 1 } name =
      get_artist_id dbq name from rfl]
  rw [hlook]
  unfold get_album_id
  rw [(load_albums_tracks_frame aid alid gid d ts _).2.1]
  rw [show ({ dbq with
      albums := dbq.albums ++ [⟨alid, title, aid, d, gid⟩],
      nextAlbumId := dbq.nextAlbumId + 1 } : DB).albums =
      dbq.albums ++ [⟨alid, title, aid, d, gid⟩] from rfl]
  dsimp only
  rw [find?_append_of_none hnone]
  simp

/-- An accepted album record still resolves its album afterwards: the album
row is inserted even when some tracks are skipped. -/
theorem load_albums_step_new {db : DB} (r : AlbumRecord)
    (hacc : (load_albums_step db r).2 = none) :
    album_exists_by_names (load_albums_step db r).1 r.artist_name
      r.album_title = true := by
  cases hal : get_album_id (get_or_create_genre (get_or_create_artist db
      r.artist_name).1 r.album_genre).1
      (get_or_create_artist db r.artist_name).2 r.album_title with
  | some alid =>
      rw [show (load_albums_step db r).2 = some (r.album_title, r.artist_name)
        from by simp [load_albums_step, hal]] at hacc
      exact Option.noConfusion hacc
  | none =>
      simp only [load_albums_step, hal]
      apply album_exists_after_insert
      · rw [get_artist_id_eq_of_artists_eq (gcGenre_frame _ _).1]
        exact gcArtist_lookup db r.artist_name
      · unfold get_album_id at hal
        exact Option.map_eq_none'.mp hal

/-- Skipping a duplicate track is silent: processing the track list with the
duplicate title present yields the same store as processing it without. -/
theorem load_albums_tracks_skip (aid alid gid : Nat) (d : Date) (db0 : DB)
    (p q2 : List String) (t : String)
    (h : (get_song_id_by_artist_and_title
      (load_albums_tracks aid alid gid d db0 p) aid t).isSome = true) :
    load_albums_tracks aid alid gid d db0 (p ++ t :: q2) =
      load_albums_tracks aid alid gid d db0 (p ++ q2) := by
  unfold load_albums_tracks at h ⊢
  rw [List.foldl_append, List.foldl_append, List.foldl_cons]
  rcases load_albums_track_cases aid alid gid d
      (List.foldl (load_albums_track aid alid gid d) db0 p) t with
    ⟨_, heq⟩ | ⟨hz, _⟩
  · rw [heq]
  · rw [hz] at h
    exact Bool.noConfusion h

/-- C2: a record whose (artist, album title) already resolves at its
processing point is rejected with its key and inserts none of its tracks;
a record with a new album is not rejected, its album row is inserted (and
still resolves afterwards), a track whose (artist, title) already exists at
its turn is skipped with no effect on the store, and the returned set
contains exactly the keys of rejected records, so skipped tracks appear
nowhere in it. -/
theorem c2_album_atomicity (db : DB) (pre post : List AlbumRecord)
    (r : AlbumRecord) (k : String × String) (h : db.idsOk = true) :
    ((load_albums_step (load_albums db pre).1 r).2 =
        some (r.album_title, r.artist_name) ↔
      album_exists_by_names (load_albums db pre).1 r.artist_name
        r.album_title = true) ∧
    ((load_albums_step (load_albums db pre).1 r).2.isSome = true →
      (load_albums_step (load_albums db pre).1 r).1.songs =
        (load_albums db pre).1.songs) ∧
    ((load_albums_step (load_albums db pre).1 r).2 = none →
      album_exists_by_names (load_albums_step (load_albums db pre).1 r).1
        r.artist_name r.album_title = true) ∧
    (∀ (db0 : DB) (aid alid gid : Nat) (d : Date) (p q2 : List String)
        (t : String),
      (get_song_id_by_artist_and_title
        (load_albums_tracks aid alid gid d db0 p) aid t).isSome = true →
      load_albums_tracks aid alid gid d db0 (p ++ t :: q2) =
        load_albums_tracks aid alid gid d db0 (p ++ q2)) ∧
    (k ∈ (load_albums db (pre ++ r :: post)).2 ↔
      ∃ pre2 r2 post2, pre ++ r :: post = pre2 ++ r2 :: post2 ∧
        (load_albums_step (load_albums db pre2).1 r2).2 = some k) :=
  ⟨load_albums_step_rejected_iff (idsOk_load_albums pre db h) r,
   load_albums_step_dup_songs r,
   load_albums_step_new r,
   fun db0 aid alid gid d p q2 t hh =>
     load_albums_tracks_skip aid alid gid d db0 p q2 t hh,
   load_albums_rejected_mem (pre ++ r :: post) db k⟩

/-- C2 witness: the theorem applied to the reference store and a duplicate
of the already-loaded "Alice Album" record. -/
theorem c2_witness :
    emptyDB.idsOk = true ∧
    (((load_albums_step (load_albums sampleDB []).1
        ⟨"Alice Album", "Pop", "Alice", ⟨2019, 12, 1⟩, []⟩).2 =
        some ("Alice Album", "Alice")) ↔
      album_exists_by_names (load_albums sampleDB []).1 "Alice"
        "Alice Album" = true) ∧
    ((load_albums_step (load_albums sampleDB []).1
        ⟨"Alice Album", "Pop", "Alice", ⟨2019, 12, 1⟩, []⟩).2.isSome = true) ∧
    ((load_albums_step (load_albums sampleDB []).1
        ⟨"Alice Album", "Pop", "Alice", ⟨2019, 12, 1⟩, []⟩).1.songs =
      (load_albums sampleDB []).1.songs) := by
  have hids : sampleDB.idsOk = true := by decide
  have h := c2_album_atomicity sampleDB [] []
    ⟨"Alice Album", "Pop", "Alice", ⟨2019, 12, 1⟩, []⟩ ("Alice Album", "Alice") hids
  exact ⟨by decide, h.1, by decide, h.2.1 (by decide)⟩

/-- C8: every album record — accepted or rejected — leaves its artist row
and its genre row present in the store (created when absent); and a record
rejected as a duplicate album leaves a store that is exactly the result of
those two get-or-creates on the prior store, whose Song, Album, User,
Rating and SongGenre tables are untouched. -/
theorem c8_album_side_effects (db : DB) (r : AlbumRecord) :
    (get_artist_id (load_albums_step db r).1 r.artist_name).isSome = true ∧
    (get_genre_id (load_albums_step db r).1 r.album_genre).isSome = true ∧
    ((load_albums_step db r).2.isSome = true →
      (load_albums_step db r).1 =
        (get_or_create_genre (get_or_create_artist db r.artist_name).1
          r.album_genre).1 ∧
      (load_albums_step db r).2 = some (r.album_title, r.artist_name) ∧
      (get_or_create_genre (get_or_create_artist db r.artist_name).1
        r.album_genre).1.songs = db.songs ∧
      (get_or_create_genre (get_or_create_artist db r.artist_name).1
        r.album_genre).1.albums = db.albums ∧
      (get_or_create_genre (get_or_create_artist db r.artist_name).1
        r.album_genre).1.users = db.users ∧
      (get_or_create_genre (get_or_create_artist db r.artist_name).1
        r.album_genre).1.ratings = db.ratings ∧
      (get_or_create_genre (get_or_create_artist db r.artist_name).1
        r.album_genre).1.songGenres = db.songGenres) := by
  have hartist : get_artist_id (get_or_create_genre (get_or_create_artist db
      r.artist_name).1 r.album_genre).1 r.artist_name =
      some (get_or_create_artist db r.artist_name).2 := by
    rw [get_artist_id_eq_of_artists_eq (gcGenre_frame _ _).1]
    exact gcArtist_lookup db r.artist_name
  cases hal : get_album_id (get_or_create_genre (get_or_create_artist db
      r.artist_name).1 r.album_genre).1
      (get_or_create_artist db r.artist_name).2 r.album_title with
  | some alid =>
      have hstate : (load_albums_step db r).1 =
          (get_or_create_genre (get_or_create_artist db r.artist_name).1
            r.album_genre).1 := by
        simp [load_albums_step, hal]
      refine ⟨?_, ?_, fun _ => ⟨hstate, by simp [load_albums_step, hal], ?_, ?_, ?_, ?_, ?_⟩⟩
      · rw [hstate, hartist]; rfl
      · rw [hstate, gcGenre_lookup]; rfl
      · rw [get_or_create_genre_songs, get_or_create_artist_songs]
      · rw [(gcGenre_frame _ _).2.1, (gcArtist_frame _ _).2.1]
      · rw [(gcGenre_frame _ _).2.2.1, (gcArtist_frame _ _).2.2.1]
      · rw [(gcGenre_frame _ _).2.2.2.1, (gcArtist_frame _ _).2.2.2.1]
      · rw [(gcGenre_frame _ _).2.2.2.2.1, (gcArtist_frame _ _).2.2.2.2.1]
  | none =>
      have hrej : (load_albums_step db r).2 = none := by
        simp [load_albums_step, hal]
      have htracks := load_albums_tracks_frame
        (get_or_create_artist db r.artist_name).2
        (get_or_create_genre (get_or_create_artist db r.artist_name).1
          r.album_genre).1.nextAlbumId
        (get_or_create_genre (get_or_create_artist db r.artist_name).1
          r.album_genre).2 r.release_date r.song_titles
      refine ⟨?_, ?_, fun hh => absurd (hrej ▸ hh) (by simp)⟩
      · simp only [load_albums_step, hal]
        rw [get_artist_id_eq_of_artists_eq (htracks _).1]
        show (get_artist_id (get_or_create_genre (get_or_create_artist db
          r.artist_name).1 r.album_genre).1 r.artist_name).isSome = true
        rw [hartist]
        rfl
      · simp only [load_albums_step, hal]
        rw [get_genre_id_eq_of_genres_eq (htracks _).2.2.1]
        show (get_genre_id (get_or_create_genre (get_or_create_artist db
          r.artist_name).1 r.album_genre).1 r.album_genre).isSome = true
        rw [gcGenre_lookup]
        rfl

/-- C8 witness: the side-effect theorem applied to a duplicate album record
on the reference store. -/
theorem c8_witness :
    ((get_artist_id (load_albums_step sampleDB
        ⟨"Alice Album", "Rock", "Alice", ⟨2021, 1, 1⟩, ["X"]⟩).1
        "Alice").isSome = true) ∧
    ((get_genre_id (load_albums_step sampleDB
        ⟨"Alice Album", "Rock", "Alice", ⟨2021, 1, 1⟩, ["X"]⟩).1
        "Rock").isSome = true) ∧
    ((load_albums_step sampleDB
        ⟨"Alice Album", "Rock", "Alice", ⟨2021, 1, 1⟩, ["X"]⟩).2.isSome = true) ∧
    ((load_albums_step sampleDB
        ⟨"Alice Album", "Rock", "Alice", ⟨2021, 1, 1⟩, ["X"]⟩).1 =
      (get_or_create_genre (get_or_create_artist sampleDB "Alice").1
        "Rock").1) := by
  have h := c8_album_side_effects sampleDB
    ⟨"Alice Album", "Rock", "Alice", ⟨2021, 1, 1⟩, ["X"]⟩
  exact ⟨h.1, h.2.1, by decide, (h.2.2 (by decide)).1⟩

/-- C4: starting from the empty store, after any sequence of loader calls at
most one Song row exists for every (artist id, title) pair, whether the
songs were attempted as singles or as album tracks. -/
theorem c4_song_key_unique (ops : List LoadOp) (aid : Nat) (t : String) :
    songCount (runLoadOps ops) aid t ≤ 1 := by
  suffices h : ∀ db : DB, (∀ a s, songCount db a s ≤ 1) →
      ∀ a s, songCount (ops.foldl applyLoadOp db) a s ≤ 1 by
    refine h emptyDB ?_ aid t
    intro a s
    simp [songCount, emptyDB]
  induction ops with
  | nil => intro db h; exact h
  | cons op rest ih =>
      intro db h
      rw [List.foldl_cons]
      apply ih
      cases op with
      | singles rs => exact load_single_songs_inv rs db h
      | albums rs => exact load_albums_inv rs db h
      | users us =>
          intro a s
          show songCount (load_users_from db [] us).1 a s ≤ 1
          rw [songCount_eq_of_songs_eq (load_users_from_songs us db [])]
          exact h a s
      | ratings rs =>
          intro a s
          show songCount (load_song_ratings db rs).1 a s ≤ 1
          rw [songCount_eq_of_songs_eq (load_song_ratings_songs rs db)]
          exact h a s

theorem engaged_entries_mem {db : DB} {y0 y1 : Int} {e : String × Nat}
    (h : e ∈ engaged_entries db y0 y1) :
    ∃ u, u ∈ db.users ∧ e.1 = u.username ∧
      e.2 = (user_window_ratings db u.user_id y0 y1).length := by
  unfold engaged_entries at h
  rcases List.mem_filterMap.mp h with ⟨u, hu, hf⟩
  dsimp only at hf
  split at hf
  · exact absurd hf (by simp)
  · cases hf
    exact ⟨u, hu, rfl, rfl⟩

/-- When no (user, song) pair carries two Rating rows, a user's in-window
COUNT(*) equals the number of distinct songs that user rated in the window. -/
theorem user_window_distinct_eq_length (db : DB) (uid : Nat) (y0 y1 : Int)
    (h : (db.ratings.map (fun rt => (rt.user_id, rt.song_id))).Nodup) :
    user_distinct_songs_rated db uid y0 y1 =
      (user_window_ratings db uid y0 y1).length := by
  unfold user_distinct_songs_rated
  have hsub : List.Sublist (user_window_ratings db uid y0 y1) db.ratings := by
    unfold user_window_ratings
    exact List.filter_sublist _
  have hpairs : ((user_window_ratings db uid y0 y1).map
      (fun rt => (rt.user_id, rt.song_id))).Nodup :=
    h.sublist (hsub.map _)
  have hrows : (user_window_ratings db uid y0 y1).Nodup :=
    List.Nodup.of_map _ hpairs
  have hinj := List.inj_on_of_nodup_map hpairs
  have huid : ∀ rt ∈ user_window_ratings db uid y0 y1, rt.user_id = uid := by
    intro rt hrt
    unfold user_window_ratings at hrt
    have hp := List.of_mem_filter hrt
    simp only [Bool.and_eq_true, beq_iff_eq] at hp
    exact hp.1.1
  have hnd : ((user_window_ratings db uid y0 y1).map
      (fun rt => rt.song_id)).Nodup := by
    refine List.Nodup.map_on ?_ hrows
    intro x hx y hy hxy
    refine hinj hx hy ?_
    rw [Prod.mk.injEq]
    exact ⟨(huid x hx).trans (huid y hy).symm, hxy⟩
  rw [List.Nodup.dedup hnd, List.length_map]

/-- C7: assuming the store invariant that each (user, song) pair has at most
one Rating row, every entry returned by mostEngagedUsers reports, for some
user row with that username, both the number of that user's in-window Rating
rows and (equivalently) the number of distinct songs that user rated in the
window. -/
theorem c7_engaged_counts (db : DB) (y0 y1 n : Int) (l : List (String × Nat))
    (hnd : (db.ratings.map (fun rt => (rt.user_id, rt.song_id))).Nodup)
    (hl : get_most_engaged_users db (y0, y1) n = some l) :
    ∀ e ∈ l, ∃ u, u ∈ db.users ∧ e.1 = u.username ∧
      e.2 = (user_window_ratings db u.user_id y0 y1).length ∧
      e.2 = user_distinct_songs_rated db u.user_id y0 y1 := by
  intro e he
  have hmem : e ∈ engaged_entries db y0 y1 := sqlLimit_sortLE_mem _ hl he
  rcases engaged_entries_mem hmem with ⟨u, hu, h1, h2⟩
  refine ⟨u, hu, h1, h2, ?_⟩
  rw [user_window_distinct_eq_length db u.user_id y0 y1 hnd]
  exact h2

/-- C7 witness: on the reference store the ratings table has no duplicate
(user, song) pair, and the theorem applies to the concrete query result. -/
theorem c7_witness :
    (sampleDB.ratings.map (fun rt => (rt.user_id, rt.song_id))).Nodup ∧
    get_most_engaged_users sampleDB (2019, 2021) 10 =
      some [("user1", 2), ("user2", 2), ("user3", 2)] ∧
    ∀ e ∈ [(("user1" : String), 2), ("user2", 2), ("user3", 2)],
      ∃ u, u ∈ sampleDB.users ∧ e.1 = u.username ∧
        e.2 = (user_window_ratings sampleDB u.user_id 2019 2021).length ∧
        e.2 = user_distinct_songs_rated sampleDB u.user_id 2019 2021 :=
  ⟨by decide, by decide,
    c7_engaged_counts sampleDB 2019 2021 10 _ (by decide) (by decide)⟩

/-- C9: calling getOrCreateArtist twice in succession with the same name
returns the same id both times, the second call changes nothing, and after
the first call exactly one Artist row carries that name — assuming the store
held at most one row with that name beforehand, as the UNIQUE name column
guarantees; and the same for getOrCreateGenre and Genre rows. -/
theorem c9_get_or_create_idempotent (db : DB) (name : String)
    (hA : (db.artists.filter (fun a => a.name == name)).length ≤ 1)
    (hG : (db.genres.filter (fun g => g.name == name)).length ≤ 1) :
    ((get_or_create_artist (get_or_create_artist db name).1 name).2 =
        (get_or_create_artist db name).2 ∧
      (get_or_create_artist (get_or_create_artist db name).1 name).1 =
        (get_or_create_artist db name).1 ∧
      ((get_or_create_artist db name).1.artists.filter
          (fun a => a.name == name)).length = 1) ∧
    ((get_or_create_genre (get_or_create_genre db name).1 name).2 =
        (get_or_create_genre db name).2 ∧
      (get_or_create_genre (get_or_create_genre db name).1 name).1 =
        (get_or_create_genre db name).1 ∧
      ((get_or_create_genre db name).1.genres.filter
          (fun g => g.name == name)).length = 1) := by
  constructor
  · cases h : db.artists.find? (fun a => a.name == name) with
    | some a =>
        simp only [get_or_create_artist, h]
        refine ⟨trivial, trivial, ?_⟩
        have hpa := List.find?_some h
        have hmem : a ∈ db.artists.filter (fun a => a.name == name) :=
          List.mem_filter.mpr ⟨List.mem_of_find?_eq_some h, hpa⟩
        have hpos : 0 < (db.artists.filter (fun a => a.name == name)).length :=
          List.length_pos.mpr (fun hh => by rw [hh] at hmem; exact absurd hmem (by simp))
        omega
    | none =>
        have hfind : (db.artists ++ [(⟨db.nextArtistId, name⟩ : ArtistRow)]).find?
            (fun a => a.name == name) = some ⟨db.nextArtistId, name⟩ := by
          rw [find?_append_of_none h]
          exact List.find?_cons_of_pos _ (by simp)
        simp only [get_or_create_artist, h, hfind]
        refine ⟨trivial, trivial, ?_⟩
        rw [List.filter_append]
        have hnil : db.artists.filter (fun a => a.name == name) = [] := by
          rw [List.filter_eq_nil_iff]
          exact List.find?_eq_none.mp h
        rw [hnil]
        simp
  · cases h : db.genres.find? (fun g => g.name == name) with
    | some g =>
        simp only [get_or_create_genre, h]
        refine ⟨trivial, trivial, ?_⟩
        have hpa := List.find?_some h
        have hmem : g ∈ db.genres.filter (fun g => g.name == name) :=
          List.mem_filter.mpr ⟨List.mem_of_find?_eq_some h, hpa⟩
        have hpos : 0 < (db.genres.filter (fun g => g.name == name)).length :=
          List.length_pos.mpr (fun hh => by rw [hh] at hmem; exact absurd hmem (by simp))
        omega
    | none =>
        have hfind : (db.genres ++ [(⟨db.nextGenreId, name⟩ : GenreRow)]).find?
            (fun g => g.name == name) = some ⟨db.nextGenreId, name⟩ := by
          rw [find?_append_of_none h]
          exact List.find?_cons_of_pos _ (by simp)
        simp only [get_or_create_genre, h, hfind]
        refine ⟨trivial, trivial, ?_⟩
        rw [List.filter_append]
        have hnil : db.genres.filter (fun g => g.name == name) = [] := by
          rw [List.filter_eq_nil_iff]
          exact List.find?_eq_none.mp h
        rw [hnil]
        simp

/-- C9 witness: the idempotence theorem applied at the empty store and the
name "A", with the at-most-one-row hypotheses discharged concretely. -/
theorem c9_witness :
    ((emptyDB.artists.filter (fun a => a.name == "A")).length ≤ 1 ∧
      (emptyDB.genres.filter (fun g => g.name == "A")).length ≤ 1) ∧
    (((get_or_create_artist (get_or_create_artist emptyDB "A").1 "A").2 =
        (get_or_create_artist emptyDB "A").2 ∧
      (get_or_create_artist (get_or_create_artist emptyDB "A").1 "A").1 =
        (get_or_create_artist emptyDB "A").1 ∧
      ((get_or_create_artist emptyDB "A").1.artists.filter
          (fun a => a.name == "A")).length = 1) ∧
    ((get_or_create_genre (get_or_create_genre emptyDB "A").1 "A").2 =
        (get_or_create_genre emptyDB "A").2 ∧
      (get_or_create_genre (get_or_create_genre emptyDB "A").1 "A").1 =
        (get_or_create_genre emptyDB "A").1 ∧
      ((get_or_create_genre emptyDB "A").1.genres.filter
          (fun g => g.name == "A")).length = 1)) :=
  ⟨⟨by decide, by decide⟩,
    c9_get_or_create_idempotent emptyDB "A" (by decide) (by decide)⟩

/-- C6 witness: the amended theorem applied at concrete inputs — n = -1
errors, n = 0 returns the empty result, n = 3 on the reference store keeps
all three qualifying artists. -/
theorem c6_witness :
    ((-1 : Int) < 0 ∧
      get_most_prolific_individual_artists emptyDB (-1) (2019, 2021) = none) ∧
    ((0 : Int) = 0 ∧ get_top_song_genres emptyDB 0 = some []) ∧
    ((0 : Int) ≤ 3 ∧
      ∃ l, get_most_prolific_individual_artists sampleDB 3 (2019, 2021) = some l ∧
        l.length = min (Int.toNat 3) (prolific_entries sampleDB 2019 2021).length) :=
  ⟨⟨by decide, ((c6_limit_behavior emptyDB (-1) 2019 2021).1 (by decide)).1⟩,
   ⟨rfl, ((c6_limit_behavior emptyDB 0 2019 2021).2.1 rfl).2.1⟩,
   ⟨by decide, ((c6_limit_behavior sampleDB 3 2019 2021).2.2 (by decide)).1⟩⟩
